import Mathlib

/-!
Verification of the NutrioBot meal-recommendation engine.

This file shallowly embeds the core of the repository — the catalog loaders,
the bounded caches, the diet/medical preference filters, the ingredient
matcher and the recommendation orchestrator — as executable Lean functions,
and proves (or refutes) the behavioural properties claimed of them.

The embedding follows the two Python modules:
  * `main.py` (namespace `Main` below): `cleanup_cache`, `validate_csv_row`,
    `convert_csv_row_to_meal`, `load_meal_data_from_csv`,
    `filter_meals_by_preferences`;
  * `ai_meal_generator.py` (namespace `AiGen` below): `cleanup_cache`,
    `filter_meals_by_medical_condition`, `load_meal_data_from_csv`,
    `load_meal_data_from_json`, `get_similar_ingredients`,
    `get_meal_type_variations`, `generate_fallback_ingredient_response`,
    `generate_ingredient_based_meal_plan`.

Modelling conventions:
  * Python dicts that carry meal records are modelled by the structure `Meal`
    whose fields are `Option`-valued, one per key the code actually accesses
    (`meal.get k d` becomes `field.getD d`, `k in meal` becomes
    `field.isSome`).
  * Python strings are Lean `String`s; `str.lower` / `str.strip` /
    `str.title` / `in` / `split` / `replace` are modelled character-exactly
    for ASCII text by `pyLower`, `pyStrip`, `pyTitle`, `pyIn`,
    `pySplitComma`, `pyRemoveChar` below (Python's Unicode case folding is
    restricted to ASCII letters; whitespace is `Char.isWhitespace`).
  * Python numbers occurring here (`int(...)`, `float(...)` of decimal CSV
    text and literal nutrient ceilings) are modelled as `Rat`; integer score
    arithmetic is `Int`.  `pyParseInt`/`pyParseFloat` model `int(str)` /
    `float(str)` on plain (optionally signed) decimal literals, the only
    forms the catalog data uses; parse failure is `none` (a `ValueError`).
  * `dict` insertion order is significant in the source (FIFO eviction), so
    the caches are association lists in insertion order; assignment to an
    existing key updates in place, assignment to a fresh key appends.
  * File I/O is modelled by passing the file system (rows per path) as an
    explicit argument; exceptions by `Option`/`Except`; the external
    text-generation HTTP call by an `Option String` environment field
    (`none` = non-200 status, timeout or exception — the code treats all
    alike).
  * `list.sort(key=…, reverse=True)` is Python's stable descending sort; it
    is modelled by `pyStableSortDesc`, which sorts index-annotated entries
    by the total antisymmetric lexicographic order (key descending,
    original index ascending) and so is stable by construction.
-/

/-! ## Python string primitives -/

/-- ASCII model of Python `str.lower` on a single character. -/
def lowerChar (c : Char) : Char :=
  if 'A' ≤ c ∧ c ≤ 'Z' then Char.ofNat (c.toNat + 32) else c

/-- ASCII model of Python `str.upper` on a single character. -/
def upperChar (c : Char) : Char :=
  if 'a' ≤ c ∧ c ≤ 'z' then Char.ofNat (c.toNat - 32) else c

/-- Python `s.lower()`. -/
def pyLower (s : String) : String := ⟨s.data.map lowerChar⟩

/-- Python `s.strip()`: remove whitespace from both ends. -/
def pyStripList (l : List Char) : List Char :=
  ((l.dropWhile Char.isWhitespace).reverse.dropWhile Char.isWhitespace).reverse

/-- Python `s.strip()`. -/
def pyStrip (s : String) : String := ⟨pyStripList s.data⟩

/-- Python substring test `needle in hay`. -/
def pyIn (needle hay : String) : Prop := needle.data <:+: hay.data

instance (a b : String) : Decidable (pyIn a b) := by
  unfold pyIn; infer_instance

/-- Boolean form of `pyIn`, used inside the executable definitions. -/
def pyInB (needle hay : String) : Bool := decide (pyIn needle hay)

/-- Python `s.split(sep)` for a one-character separator, on char lists:
never collapses adjacent separators, `[] ↦ [[]]`. -/
def splitOnCharList (c : Char) : List Char → List (List Char)
  | [] => [[]]
  | x :: xs =>
    match splitOnCharList c xs with
    | [] => [[]]
    | h :: t => if x = c then [] :: h :: t else (x :: h) :: t

/-- Python `s.split(',')`. -/
def pySplitComma (s : String) : List String :=
  (splitOnCharList ',' s.data).map String.mk

/-- Python `s.replace(String.singleton c, "")`: drop every occurrence of `c`. -/
def pyRemoveChar (c : Char) (s : String) : String :=
  ⟨s.data.filter (fun x => x ≠ c)⟩

/-- ASCII letter test, the word-boundary notion of Python `str.title`. -/
def isAlphaChar (c : Char) : Bool :=
  ('A' ≤ c ∧ c ≤ 'Z') ∨ ('a' ≤ c ∧ c ≤ 'z')

/-- Python `s.title()`: first letter of every alphabetic run uppercased,
the rest of the run lowercased. -/
def pyTitleList : List Char → Bool → List Char
  | [], _ => []
  | c :: cs, prevAlpha =>
    (if isAlphaChar c then (if prevAlpha then lowerChar c else upperChar c) else c)
      :: pyTitleList cs (isAlphaChar c)

/-- Python `s.title()`. -/
def pyTitle (s : String) : String := ⟨pyTitleList s.data false⟩

/-- The numeric value of a digit run. -/
def digitsVal (l : List Char) : Nat :=
  l.foldl (fun acc c => acc * 10 + (c.toNat - ('0' : Char).toNat)) 0

/-- Python `int(s)` for optionally signed decimal literals (underscores and
exponent forms do not occur in the catalog data and are not modelled);
`none` models a `ValueError`. -/
def pyParseInt (s : String) : Option Int :=
  let t := pyStripList s.data
  let (sign, digits) : Int × List Char :=
    match t with
    | '-' :: rest => (-1, rest)
    | '+' :: rest => (1, rest)
    | _ => (1, t)
  if digits ≠ [] ∧ digits.all Char.isDigit then
    some (sign * (digitsVal digits : Int))
  else none

/-- Python `float(s)` for plain decimal literals `[±]digits[.digits]`
(the only numeric forms in the catalog data; exponent forms are not
modelled); `none` models a `ValueError`.  The value is assembled with
`mkRat` over integer arithmetic so that it evaluates by kernel
reduction. -/
def pyParseFloat (s : String) : Option Rat :=
  let t := pyStripList s.data
  let (sign, body) : Int × List Char :=
    match t with
    | '-' :: rest => (-1, rest)
    | '+' :: rest => (1, rest)
    | _ => (1, t)
  match splitOnCharList '.' body with
  | [intPart] =>
    if intPart ≠ [] ∧ intPart.all Char.isDigit then
      some (mkRat (sign * (digitsVal intPart : Int)) 1)
    else none
  | [intPart, fracPart] =>
    if (intPart ≠ [] ∨ fracPart ≠ []) ∧ intPart.all Char.isDigit ∧ fracPart.all Char.isDigit then
      some (mkRat
        (sign * ((digitsVal intPart * 10 ^ fracPart.length + digitsVal fracPart : Nat) : Int))
        (10 ^ fracPart.length))
    else none
  | _ => none

/-- The apostrophe character, written by code point to keep string literals
quote-free. -/
def quoteChar : Char := Char.ofNat 39

/-- Python `repr` of a string as it appears inside `str(list)`: the text
wrapped in single quotes (escaping is irrelevant for catalog text). -/
def pyReprStr (s : String) : String :=
  String.singleton quoteChar ++ s ++ String.singleton quoteChar

/-- Python `str(x)` for a list of strings: `[` + comma-separated `repr`s + `]`. -/
def pyStrOfStrList (xs : List String) : String :=
  "[" ++ String.intercalate ", " (xs.map pyReprStr) ++ "]"

/-- Simple display of a `Rat` in response text (Python would print the
underlying int/float; no claim inspects these digits). -/
def ratDisplay (q : Rat) : String :=
  if q.den = 1 then toString q.num else toString q.num ++ "." ++ toString q.den

/-! ## Python values and the meal record

A value stored in a user-data dict is either a string or some non-string
object; the code calls `.lower()` on such values, which raises
`AttributeError` for non-strings. -/

/-- A Python value as far as the orchestrator's dict accesses can observe it. -/
inductive PyVal where
  /-- a `str` value -/
  | str (s : String)
  /-- any non-string value (calling `.lower()` on it raises) -/
  | nonStr
  deriving Repr, DecidableEq

/-- Python truthiness of a `PyVal`: `""` is falsy; non-string values are
modelled as truthy (the relevant claims instantiate them with truthy
objects such as non-zero numbers). -/
def PyVal.truthy : PyVal → Bool
  | .str s => s ≠ ""
  | .nonStr => true

/-- `v.lower()`: succeeds exactly on strings. -/
def PyVal.lower : PyVal → Option String
  | .str s => some (pyLower s)
  | .nonStr => none

/-- `dict.get k default` over an association-list dict of `PyVal`s. -/
def pyGet (d : List (String × PyVal)) (k : String) (default : PyVal) : PyVal :=
  match d.find? (fun kv => kv.1 = k) with
  | some kv => kv.2
  | none => default

/-- The value stored under a meal dict's `Ingredients`-like key: the code
branches on `isinstance(x, str)` (and Python iteration over a `str` yields
its characters), so both shapes are kept. -/
inductive StrOrList where
  | str (s : String)
  | list (xs : List String)
  deriving Repr, DecidableEq

/-- Python iteration over a `str` or `list` of strings: a `list` yields its
elements, a `str` yields its characters as one-character strings. -/
def StrOrList.iter : StrOrList → List String
  | .str s => s.data.map String.singleton
  | .list xs => xs

/-- Python `str(x)` of a `str`-or-`list` value. -/
def StrOrList.pyStr : StrOrList → String
  | .str s => s
  | .list xs => pyStrOfStrList xs

/-- A meal record: one `Option` field per dict key the engine reads.
Capitalised CSV-style keys and lowercase keys coexist in the source data
shapes, so both appear. -/
structure Meal where
  /-- key `Food Item` -/
  foodItem : Option String := none
  /-- key `name` -/
  name : Option String := none
  /-- key `Ingredients` -/
  ingredientsU : Option StrOrList := none
  /-- key `ingredients` -/
  ingredientsL : Option StrOrList := none
  /-- key `approx_calories` -/
  approxCalories : Option Rat := none
  /-- key `Calories (kcal)` -/
  caloriesKcal : Option Rat := none
  /-- key `calories` -/
  calories : Option Rat := none
  /-- key `Carbs (g)` -/
  carbsG : Option Rat := none
  /-- key `Protein (g)` -/
  proteinG : Option Rat := none
  /-- key `Fat (g)` -/
  fatG : Option Rat := none
  /-- key `Carbs` (main.py converted shape) -/
  carbs : Option Rat := none
  /-- key `Protein` (main.py converted shape) -/
  protein : Option Rat := none
  /-- key `Fat` (main.py converted shape) -/
  fat : Option Rat := none
  /-- key `Category` -/
  category : Option String := none
  /-- key `Region` -/
  region : Option String := none
  /-- key `meal_type` -/
  mealType : Option String := none
  /-- key `diet_type` -/
  dietType : Option String := none
  /-- key `SpecialNote` -/
  specialNote : Option String := none
  /-- key `Calorie Level` -/
  calorieLevel : Option String := none
  /-- key `Health Impact` -/
  healthImpact : Option String := none
  /-- key `medical_score` -/
  medicalScore : Option Int := none
  deriving Repr, DecidableEq

/-- A CSV row as `csv.DictReader` yields it: column name / text pairs. -/
abbrev CsvRow := List (String × String)

/-- `row.get field`. -/
def rowGet (row : CsvRow) (field : String) : Option String :=
  match row.find? (fun kv => kv.1 = field) with
  | some kv => some kv.2
  | none => none

/-- `row.get field default`. -/
def rowGetD (row : CsvRow) (field default : String) : String :=
  (rowGet row field).getD default

/-! ## Caches (Python dicts in insertion order) -/

/-- A module-level cache: an association list in insertion order. -/
abbrev Cache (α : Type) := List (String × α)

/-- `cache[key]` read: first binding of the key. -/
def cacheGet {α} (c : Cache α) (k : String) : Option α :=
  match c.find? (fun kv => kv.1 = k) with
  | some kv => some kv.2
  | none => none

/-- `cache[key] = v`: update in place if present, else append (Python dict
assignment preserves insertion order of existing keys). -/
def cachePut {α} (c : Cache α) (k : String) (v : α) : Cache α :=
  if c.any (fun kv => kv.1 = k) then
    c.map (fun kv => if kv.1 = k then (k, v) else kv)
  else c ++ [(k, v)]

/-- Number of cache entries. -/
def cacheSize {α} (c : Cache α) : Nat := c.length

/-- The keys in insertion order. -/
def cacheKeys {α} (c : Cache α) : List String :=
  c.map Prod.fst

/-! ## Stable descending sort (`list.sort(key=…, reverse=True)`) -/

/-- The order realising Python's `list.sort(key=…, reverse=True)` on
index-annotated entries: key descending, ties by original position
ascending.  The relation is total, transitive and antisymmetric on
distinct positions, so the sorted result is the unique stable descending
arrangement. -/
def descIdxRel {α : Type} (key : α → Int) (a b : Nat × α) : Prop :=
  key b.2 < key a.2 ∨ (key a.2 = key b.2 ∧ a.1 ≤ b.1)

instance {α : Type} (key : α → Int) : DecidableRel (descIdxRel key) := fun a b => by
  unfold descIdxRel; infer_instance

/-- Python's `list.sort(key=k, reverse=True)`: stable descending sort on
index-annotated entries. -/
def pyStableSortDescIdx {α : Type} (key : α → Int) (l : List α) : List (Nat × α) :=
  List.insertionSort (descIdxRel key) l.enum

/-- The sorted list itself (annotations dropped). -/
def pyStableSortDesc {α : Type} (key : α → Int) (l : List α) : List α :=
  (pyStableSortDescIdx key l).map Prod.snd

/-! ## `main.py` -/

namespace Main

def MAX_MEALS_PER_REQUEST : Nat := 50

def MAX_CACHE_SIZE : Nat := 1000

def ALLOWED_DIET_TYPES : List String :=
  ["vegetarian", "veg", "non-vegetarian", "non-veg", "vegan",
   "keto", "eggitarian", "jain", "mixed", "paleo", "mediterranean",
   "dash", "low-carb", "high-protein", "balanced"]

def ALLOWED_MEAL_TYPES : List String :=
  ["breakfast", "lunch", "dinner", "snack", "morning snack", "evening snack"]

/-- `main.py cleanup_cache`: FIFO eviction once the dict exceeds
`max_size`, dropping the oldest `size - max_size + 10` keys.  The
`except` arm of the source (clear on failure) is unreachable here: the
modelled deletions cannot raise. -/
def cleanup_cache {α} (cache : Cache α) (max_size : Nat := MAX_CACHE_SIZE) : Cache α :=
  if cacheSize cache > max_size then
    let keys_to_remove := (cacheKeys cache).take (cacheSize cache - max_size + 10)
    cache.filter (fun kv => !(keys_to_remove.contains kv.1))
  else cache

def REQUIRED_FIELDS : List String :=
  ["Diet Type", "Meal", "Dish Combo", "Ingredients (per serving)", "Calories (kcal)"]

/-- The suspicious-content patterns; each is a literal, so `re.search` with
`IGNORECASE` is a case-insensitive substring test. -/
def SUSPICIOUS_PATTERNS : List String :=
  ["<script", "javascript:", "data:", "vbscript:", "onload=",
   "<iframe", "<object", "<embed", "<form", "<input"]

/-- `main.py validate_csv_row`. -/
def validate_csv_row (row : CsvRow) : Bool :=
  (REQUIRED_FIELDS.all (fun f =>
      match rowGet row f with
      | none => false
      | some v => v != "" && pyStrip v != ""))
  && !(row.any (fun kv => SUSPICIOUS_PATTERNS.any (fun p => pyInB p (pyLower kv.2))))
  && (match pyParseFloat (rowGetD row "Calories (kcal)" "0") with
      | none => false
      | some c => !(decide (c < 0) || decide (c > 2000)))
  && row.all (fun kv => kv.2.data.length ≤ 1000)

/-- `main.py convert_csv_row_to_meal`; `none` models the caught
conversion exception (a numeric field failing `float`). -/
def convert_csv_row_to_meal (row : CsvRow) : Option Meal := do
  let ingredients :=
    ((pySplitComma (rowGetD row "Ingredients (per serving)" "")).map pyStrip).filter
      (fun i => i ≠ "")
  let calories ← pyParseFloat (rowGetD row "Calories (kcal)" "200")
  let carbs ← pyParseFloat (rowGetD row "Carbs (g)" "0")
  let protein ← pyParseFloat (rowGetD row "Protein (g)" "0")
  let fat ← pyParseFloat (rowGetD row "Fat (g)" "0")
  let calorie_level := if calories < 200 then "low" else if calories < 500 then "medium" else "high"
  some { foodItem := some (pyStrip (rowGetD row "Dish Combo" "")),
         ingredientsU := some (.list ingredients),
         approxCalories := some calories,
         healthImpact := some (rowGetD row "Healthy Tag" "Good for health"),
         calorieLevel := some calorie_level,
         category := some (rowGetD row "Meal" "General"),
         region := some "India",
         specialNote := some ("Diet: " ++ rowGetD row "Diet Type" "General"),
         carbs := some carbs,
         protein := some protein,
         fat := some fat }

/-- `main.py get_fallback_meal_data`. -/
def get_fallback_meal_data (state : String) : List Meal :=
  let _ := state
  [{ foodItem := some "Rice and Dal",
     ingredientsU := some (.list ["rice", "lentils", "spices", "onion", "tomato"]),
     approxCalories := some 250,
     healthImpact := some "Balanced meal with protein and carbs",
     calorieLevel := some "medium" },
   { foodItem := some "Vegetable Curry",
     ingredientsU := some (.list ["vegetables", "spices", "onion", "tomato", "oil"]),
     approxCalories := some 180,
     healthImpact := some "High in fiber and vitamins",
     calorieLevel := some "low" },
   { foodItem := some "Chapati",
     ingredientsU := some (.list ["wheat flour", "water", "salt"]),
     approxCalories := some 120,
     healthImpact := some "Whole grain bread, good source of fiber",
     calorieLevel := some "low" },
   { foodItem := some "Mixed Vegetable Salad",
     ingredientsU := some (.list ["cucumber", "tomato", "onion", "lemon", "salt"]),
     approxCalories := some 80,
     healthImpact := some "Low calorie, high in vitamins",
     calorieLevel := some "low" }]

/-- `all_mealplans_merged.csv` as the loader can observe it.  A `none` in
`utf8Rows` models a `UnicodeDecodeError` raised when the UTF-8 read starts
(mid-stream decode failures are not modelled); `latin1Rows = none` models
the retry read failing too. -/
structure MainCsvFile where
  present : Bool := true
  oversize : Bool := false
  utf8Rows : Option (List CsvRow) := some []
  latin1Rows : Option (List CsvRow) := some []

/-- Result of one loader call: the returned meals, the module cache
afterwards, and whether the call opened and read the CSV file's contents
(the cached and fail-soft paths do not). -/
structure LoadResult where
  meals : List Meal
  cache : Cache (List Meal)
  didRead : Bool
  deriving Repr

/-- Python `f"{x}"` of a string-or-None parameter. -/
def optStr : Option String → String
  | none => "None"
  | some s => s

/-- The loader's cache key, built from the already sanitized and clamped
parameters. -/
def mainCacheKey (diet_type meal_type : Option String) (max_meals : Nat) : String :=
  optStr diet_type ++ "_" ++ optStr meal_type ++ "_" ++ toString max_meals

/-- Parameter sanitization: a non-empty diet type outside the allow-list is
replaced by `None` (empty strings are falsy and skip the check). -/
def sanitizeDietType (diet_type : Option String) : Option String :=
  match diet_type with
  | some d => if d ≠ "" ∧ pyLower d ∉ ALLOWED_DIET_TYPES then none else some d
  | none => none

/-- Parameter sanitization for the meal type, as for the diet type. -/
def sanitizeMealType (meal_type : Option String) : Option String :=
  match meal_type with
  | some m => if m ≠ "" ∧ pyLower m ∉ ALLOWED_MEAL_TYPES then none else some m
  | none => none

/-- The clamp at `main.py:537`. -/
def clampMaxMeals (max_meals : Nat) : Nat :=
  if max_meals > MAX_MEALS_PER_REQUEST then MAX_MEALS_PER_REQUEST else max_meals

/-- The UTF-8 row loop of `main.py load_meal_data_from_csv` (rows enumerated
from 1; `invalid` counts rows failing validation; both safety caps and the
`meals_found` cap stop the loop). -/
def rowLoopUtf8 (diet_type meal_type : Option String) (max_meals : Nat) :
    List CsvRow → Nat → Nat → Nat → List Meal
  | [], _, _, _ => []
  | row :: rest, row_num, found, invalid =>
    if found ≥ max_meals then []
    else if row_num > 10000 then []
    else if !validate_csv_row row then
      if invalid + 1 > 100 then []
      else rowLoopUtf8 diet_type meal_type max_meals rest (row_num + 1) found (invalid + 1)
    else if (match diet_type with
             | some d => d != "" && pyLower (rowGetD row "Diet Type" "") != pyLower d
             | none => false) then
      rowLoopUtf8 diet_type meal_type max_meals rest (row_num + 1) found invalid
    else if (match meal_type with
             | some m => m != "" && pyLower (rowGetD row "Meal" "") != pyLower m
             | none => false) then
      rowLoopUtf8 diet_type meal_type max_meals rest (row_num + 1) found invalid
    else
      match convert_csv_row_to_meal row with
      | some meal => meal :: rowLoopUtf8 diet_type meal_type max_meals rest (row_num + 1) (found + 1) invalid
      | none => rowLoopUtf8 diet_type meal_type max_meals rest (row_num + 1) found invalid

/-- The latin-1 retry loop (`main.py:592`): validation and conversion only —
no diet/meal filters and no row-count caps, exactly as in the source. -/
def rowLoopLatin1 (max_meals : Nat) : List CsvRow → Nat → List Meal
  | [], _ => []
  | row :: rest, found =>
    if found ≥ max_meals then []
    else if validate_csv_row row then
      match convert_csv_row_to_meal row with
      | some meal => meal :: rowLoopLatin1 max_meals rest (found + 1)
      | none => rowLoopLatin1 max_meals rest found
    else rowLoopLatin1 max_meals rest found

/-- The row-processing step of the `main.py` loader: the UTF-8 read, or the
latin-1 retry when the UTF-8 decode fails, or no rows when both fail. -/
def readMeals (file : MainCsvFile) (diet_type meal_type : Option String) (max_meals : Nat) :
    List Meal :=
  match file.utf8Rows with
  | some rows => rowLoopUtf8 diet_type meal_type max_meals rows 1 0 0
  | none =>
    match file.latin1Rows with
    | some rows => rowLoopLatin1 max_meals rows 0
    | none => []

/-- `main.py load_meal_data_from_csv`: size guard, parameter sanitization,
`max_meals` clamp, cache lookup, row processing, caching of non-empty
results (with eviction), fallback corpus for empty results. -/
def load_meal_data_from_csv (file : MainCsvFile) (cache : Cache (List Meal))
    (diet_type meal_type : Option String := none)
    (max_meals : Nat := MAX_MEALS_PER_REQUEST) : LoadResult :=
  if !file.present then ⟨get_fallback_meal_data "general", cache, false⟩
  else if file.oversize then ⟨get_fallback_meal_data "general", cache, false⟩
  else
    let diet_type := sanitizeDietType diet_type
    let meal_type := sanitizeMealType meal_type
    let max_meals := clampMaxMeals max_meals
    let cache_key := mainCacheKey diet_type meal_type max_meals
    match cacheGet cache cache_key with
    | some v => ⟨v, cache, false⟩
    | none =>
      let meals := readMeals file diet_type meal_type max_meals
      if meals.length > 0 then
        let cache1 := cachePut cache cache_key meals
        let cache2 := if cacheSize cache1 > MAX_CACHE_SIZE then cleanup_cache cache1 else cache1
        ⟨meals, cache2, true⟩
      else ⟨get_fallback_meal_data "general", cache, true⟩

/-- `str(meal.get("Ingredients", [])).lower()`, the string the diet rules
scan. -/
def ingredientsStrLower (meal : Meal) : String :=
  pyLower ((meal.ingredientsU.getD (.list [])).pyStr)

def JAIN_BANNED : List String :=
  ["onion", "garlic", "potato", "egg", "chicken", "fish", "meat", "prawn"]

def VEGAN_BANNED : List String :=
  ["milk", "ghee", "curd", "egg", "meat", "fish", "chicken"]

def NONVEG_ITEMS : List String :=
  ["chicken", "fish", "meat", "prawn", "egg"]

def MEAT_FISH_ITEMS : List String :=
  ["chicken", "fish", "meat", "prawn"]

/-- The medical-condition tail of `filter_meals_by_preferences` (reached
unless an earlier diet branch already accepted or rejected the meal). -/
def medicalPasses (medical_condition : String) (meal : Meal) : Bool :=
  if pyLower medical_condition = "diabetes" then
    if pyLower (meal.calorieLevel.getD "") = "high" ∨
       pyLower (meal.calorieLevel.getD "") = "very high" then false
    else if decide (meal.approxCalories.getD 0 > 300) then false
    else true
  else if pyLower medical_condition = "thyroid" then
    !(pyInB "coconut" (ingredientsStrLower meal))
  else true

/-- The per-meal decision of `filter_meals_by_preferences` (each branch of
the source either `continue`s = `false`, appends immediately = `true`, or
falls through to the medical checks). -/
def mealPasses (dl medical_condition : String) (meal : Meal) : Bool :=
  if meal.foodItem.isNone then false
  else if dl = "jain" then
    if JAIN_BANNED.any (fun b => pyInB b (ingredientsStrLower meal)) then false
    else if pyLower (meal.specialNote.getD "") == "no onion, garlic" then false
    else medicalPasses medical_condition meal
  else if dl = "vegan" then
    if VEGAN_BANNED.any (fun b => pyInB b (ingredientsStrLower meal)) then false
    else if pyLower (meal.specialNote.getD "") == "vegan" then false
    else medicalPasses medical_condition meal
  else if dl = "non-vegetarian" then
    if NONVEG_ITEMS.any (fun b => pyInB b (ingredientsStrLower meal)) then true
    else medicalPasses medical_condition meal
  else if dl = "vegetarian" then
    if NONVEG_ITEMS.any (fun b => pyInB b (ingredientsStrLower meal)) then false
    else medicalPasses medical_condition meal
  else if dl = "eggitarian" then
    if MEAT_FISH_ITEMS.any (fun b => pyInB b (ingredientsStrLower meal)) then false
    else if pyInB "egg" (ingredientsStrLower meal) then true
    else medicalPasses medical_condition meal
  else if dl = "keto" then
    if decide (meal.carbs.getD 0 > 20) then false
    else if decide (meal.fat.getD 0 > 10) then true
    else medicalPasses medical_condition meal
  else medicalPasses medical_condition meal

/-- `main.py filter_meals_by_preferences`: synonym normalization followed by
the per-meal keep/drop decision (order-preserving). -/
def filter_meals_by_preferences (meals : List Meal) (diet_type medical_condition : String) :
    List Meal :=
  let dl0 := pyLower diet_type
  let dl := if dl0 = "veg" ∨ dl0 = "vegetarian" then "vegetarian"
            else if dl0 = "non-veg" ∨ dl0 = "non-vegetarian" then "non-vegetarian"
            else dl0
  meals.filter (mealPasses dl medical_condition)

end Main

/-! ## `ai_meal_generator.py` -/

namespace AiGen

def MAX_MEALS_PER_REQUEST : Nat := 50

def MAX_CACHE_SIZE : Nat := 1000

/-- `ai_meal_generator.py cleanup_cache` (same FIFO eviction as `main.py`,
with the fixed module ceiling). -/
def cleanup_cache {α} (cache : Cache α) : Cache α :=
  if cacheSize cache > MAX_CACHE_SIZE then
    let keys_to_remove := (cacheKeys cache).take (cacheSize cache - MAX_CACHE_SIZE + 10)
    cache.filter (fun kv => !(keys_to_remove.contains kv.1))
  else cache

/-- One entry of `MEDICAL_CONDITION_MAPPING`. -/
structure MedicalConfig where
  keywords : List String
  avoid : List String
  /-- the prefer-term list (`prefer` shadows a Lean keyword-adjacent name,
  hence the field name) -/
  preferred : List String
  max_carbs : Option Rat := none
  max_calories : Option Rat := none
  max_sodium : Option Rat := none
  max_protein : Option Rat := none
  max_fat : Option Rat := none
  deriving Repr, DecidableEq

/-- `MEDICAL_CONDITION_MAPPING`, in dict insertion order. -/
def MEDICAL_CONDITION_MAPPING : List (String × MedicalConfig) :=
  [("diabetes",
    { keywords := ["diabetes", "diabetic", "blood sugar", "glucose"],
      avoid := ["high sugar", "refined carbs", "sweet", "jaggery", "honey"],
      preferred := ["low glycemic", "fiber rich", "complex carbs", "protein"],
      max_carbs := some 45,
      max_calories := some 400 }),
   ("thyroid",
    { keywords := ["thyroid", "hypothyroid", "hyperthyroid"],
      avoid := ["goitrogenic foods", "raw cabbage", "soy"],
      preferred := ["iodine rich", "selenium rich", "protein rich"],
      max_calories := some 500 }),
   ("heart",
    { keywords := ["heart", "cardiac", "cardiovascular", "bp", "blood pressure"],
      avoid := ["high sodium", "fried", "trans fat", "saturated fat"],
      preferred := ["low sodium", "heart healthy", "omega 3", "fiber"],
      max_sodium := some 500,
      max_fat := some 15 }),
   ("obesity",
    { keywords := ["obesity", "overweight", "weight loss"],
      avoid := ["high calorie", "fried", "sweet"],
      preferred := ["low calorie", "high protein", "fiber rich"],
      max_calories := some 300 }),
   ("kidney",
    { keywords := ["kidney", "renal", "creatinine"],
      avoid := ["high protein", "high potassium", "high sodium"],
      preferred := ["low protein", "low potassium", "low sodium"],
      max_protein := some 15,
      max_calories := some 350 }),
   ("liver",
    { keywords := ["liver", "hepatic"],
      avoid := ["high fat", "fried", "alcohol"],
      preferred := ["low fat", "protein rich", "antioxidant"],
      max_fat := some 10,
      max_calories := some 400 })]

/-- The condition lookup at `ai_meal_generator.py:112`: first mapping entry
one of whose keywords occurs in the lowercased condition string. -/
def findMedicalConfig (mcLower : String) : Option MedicalConfig :=
  (MEDICAL_CONDITION_MAPPING.find? (fun p => p.2.keywords.any (fun k => pyInB k mcLower))).map
    Prod.snd

/-- The ingredient list the medical filter scans: key `Ingredients` with
default `[]`; a string value is comma-split, stripped and lowercased, a
list value is used as stored. -/
def medicalIngredients (meal : Meal) : List String :=
  match meal.ingredientsU.getD (.list []) with
  | .str s => (pySplitComma s).map (fun i => pyLower (pyStrip i))
  | .list xs => xs

/-- The per-meal body of `filter_meals_by_medical_condition`: `none` for a
rejected meal (avoid-term hit or a nutrient ceiling exceeded), otherwise
the prefer-term score the meal accrues. -/
def medicalDecision (cfg : MedicalConfig) (meal : Meal) : Option Int :=
  let meal_name := pyLower ((meal.foodItem.getD (meal.name.getD "")))
  let ingredients := medicalIngredients meal
  let should_avoid := cfg.avoid.any (fun av =>
    pyInB av meal_name || ingredients.any (fun ing => pyInB av ing))
  if should_avoid then none
  else
    let score : Int := cfg.preferred.foldl (fun acc p =>
      acc + (if pyInB p meal_name then 5 else 0)
          + 3 * ((ingredients.countP (fun ing => pyInB p ing) : Nat) : Int)) 0
    let calories := meal.approxCalories.getD (meal.caloriesKcal.getD 200)
    let carbs := meal.carbsG.getD 0
    let protein := meal.proteinG.getD 0
    let fat := meal.fatG.getD 0
    if (match cfg.max_calories with | some m => decide (calories > m) | none => false) then none
    else if (match cfg.max_carbs with | some m => decide (carbs > m) | none => false) then none
    else if (match cfg.max_protein with | some m => decide (protein > m) | none => false) then none
    else if (match cfg.max_fat with | some m => decide (fat > m) | none => false) then none
    else some score

/-- `ai_meal_generator.py filter_meals_by_medical_condition`: no-op for a
missing/`none`/unknown condition, otherwise keep the accepted meals with
`medical_score` written into them, sorted stably by descending score. -/
def filter_meals_by_medical_condition (meals : List Meal) (medical_condition : String) :
    List Meal :=
  if medical_condition = "" ∨ pyLower medical_condition = "none" then meals
  else
    match findMedicalConfig (pyLower medical_condition) with
    | none => meals
    | some cfg =>
      let filtered := meals.filterMap (fun meal =>
        (medicalDecision cfg meal).map (fun s => { meal with medicalScore := some s }))
      pyStableSortDesc (fun m => m.medicalScore.getD 0) filtered

/-- `ai_meal_generator.py get_fallback_meal_data`. -/
def get_fallback_meal_data : List Meal :=
  [{ name := some "Healthy Breakfast Bowl",
     calories := some 300,
     ingredientsL := some (.list ["Oats", "Banana", "Honey", "Nuts"]),
     mealType := some "breakfast" },
   { name := some "Nutritious Lunch Plate",
     calories := some 450,
     ingredientsL := some (.list ["Brown Rice", "Vegetables", "Dal", "Salad"]),
     mealType := some "lunch" },
   { name := some "Light Dinner",
     calories := some 350,
     ingredientsL := some (.list ["Roti", "Sabzi", "Curd", "Salad"]),
     mealType := some "dinner" },
   { name := some "Healthy Snack",
     calories := some 150,
     ingredientsL := some (.list ["Fruits", "Nuts", "Seeds"]),
     mealType := some "snack" }]

/-- The file system the AI-module loader reads: rows per CSV path (a
missing path means the file does not exist). -/
abbrev Fs := List (String × List CsvRow)

/-- `Path(p).exists()` plus reading: the rows of a present file. -/
def fsGet (fs : Fs) (path : String) : Option (List CsvRow) :=
  match fs.find? (fun kv => kv.1 = path) with
  | some kv => some kv.2
  | none => none

/-- The state-to-CSV-path dispatch at `ai_meal_generator.py:213`. -/
def csvPathForState (state : Option String) : String :=
  match state with
  | some st =>
    let sl := pyLower st
    if sl = "maharashtra" then "maharastra.csv"
    else if sl = "karnataka" then "karnataka.csv"
    else if sl = "andhra" then "andhra.csv"
    else "maharastra.csv"
  | none => "maharastra.csv"

/-- The `meal_mapping` table at `ai_meal_generator.py:267`. -/
def meal_mapping : List (String × List String) :=
  [("snack", ["morning snack", "evening snack"]),
   ("morning snack", ["morning snack"]),
   ("evening snack", ["evening snack"]),
   ("breakfast", ["breakfast"]),
   ("lunch", ["lunch"]),
   ("dinner", ["dinner"]),
   ("day total", ["day total"])]

/-- The meal-type row filter of the AI-module loader: mapped comparison for
known requested types, direct equality otherwise. -/
def mealTypeRowPasses (meal_type : String) (row : CsvRow) : Bool :=
  let csv_meal := pyLower (rowGetD row "Meal" "")
  let requested_meal := pyLower meal_type
  match meal_mapping.find? (fun p => p.1 = requested_meal) with
  | some p => p.2.contains csv_meal
  | none => csv_meal == requested_meal

/-- The row loop of the AI-module loader.  NB: there is no clamp on
`max_meals` in this module.  An unparsable `Calories (kcal)` value raises
`ValueError` (`.error`), aborting the whole load. -/
def aiRowLoop (diet_type meal_type : Option String) (max_meals : Nat) :
    List CsvRow → Nat → Except Unit (List Meal)
  | [], _ => .ok []
  | row :: rest, found =>
    if found ≥ max_meals then .ok []
    else if rowGetD row "Dish Combo" "" = "" then aiRowLoop diet_type meal_type max_meals rest found
    else if (match diet_type with
             | some d => d != "" && pyLower (rowGetD row "Diet Type" "") != pyLower d
             | none => false) then
      aiRowLoop diet_type meal_type max_meals rest found
    else if (match meal_type with
             | some m => m != "" && !mealTypeRowPasses m row
             | none => false) then
      aiRowLoop diet_type meal_type max_meals rest found
    else
      match (match rowGet row "Calories (kcal)" with
             | none => some 0
             | some s => pyParseInt s) with
      | none => .error ()
      | some cal =>
        let ingredients :=
          if rowGetD row "Ingredients (per serving)" "" ≠ "" then
            pySplitComma (rowGetD row "Ingredients (per serving)" "")
          else []
        let meal : Meal :=
          { name := some (rowGetD row "Dish Combo" "Unknown"),
            calories := some (cal : Rat),
            ingredientsL := some (.list ingredients),
            mealType := some (rowGetD row "Meal" "general"),
            dietType := some (rowGetD row "Diet Type" "general") }
        (aiRowLoop diet_type meal_type max_meals rest (found + 1)).map (meal :: ·)

/-- The AI-module loader's cache key (`f"{state}_{diet_type}_{meal_type}_{max_meals}"`). -/
def aiCacheKey (state diet_type meal_type : Option String) (max_meals : Nat) : String :=
  Main.optStr state ++ "_" ++ Main.optStr diet_type ++ "_" ++ Main.optStr meal_type ++ "_"
    ++ toString max_meals

/-- `ai_meal_generator.py load_meal_data_from_csv`: path dispatch, existence
check, cache lookup, row loop (unclamped `max_meals`!), caching of
non-empty results.  A load-time exception or an absent file falls back to
the built-in corpus.  The empty-result branch of the source re-invokes the
loader purely to log a diagnostic count; that self-call does not affect
the returned value and is not modelled. -/
def load_meal_data_from_csv (fs : Fs) (cache : Cache (List Meal))
    (state diet_type meal_type : Option String := none)
    (max_meals : Nat := MAX_MEALS_PER_REQUEST) : List Meal × Cache (List Meal) :=
  let csv_path := csvPathForState state
  match fsGet fs csv_path with
  | none => (get_fallback_meal_data, cache)
  | some rows =>
    let cache_key := aiCacheKey state diet_type meal_type max_meals
    match cacheGet cache cache_key with
    | some v => (v, cache)
    | none =>
      match aiRowLoop diet_type meal_type max_meals rows 0 with
      | .error _ => (get_fallback_meal_data, cache)
      | .ok meals =>
        if meals.isEmpty then (get_fallback_meal_data, cache)
        else (meals, cleanup_cache (cachePut cache cache_key meals))

/-- `ai_meal_generator.py load_meal_data_from_json`: redirects to the CSV
loader with only the state set (legacy name kept in the source). -/
def load_meal_data_from_json (fs : Fs) (cache : Cache (List Meal)) (state : String) :
    List Meal × Cache (List Meal) :=
  load_meal_data_from_csv fs cache (some state)

end AiGen

namespace AiGen

/-- `get_similar_ingredients`: first `similar_map` entry whose key contains
or is contained in the lowercased, stripped ingredient; otherwise the
ingredient itself, unchanged. -/
def similar_map : List (String × List String) :=
  [("rice", ["basmati", "brown rice", "white rice", "steamed rice", "rice"]),
   ("dal", ["lentils", "toor dal", "moong dal", "masoor dal", "urad dal", "dal"]),
   ("tomato", ["tomatoes", "tomato puree", "tomato paste", "tomato"]),
   ("onion", ["onions", "red onion", "white onion", "onion"]),
   ("potato", ["potatoes", "aloo", "baby potatoes", "potato"]),
   ("egg", ["eggs", "boiled egg", "fried egg", "egg"]),
   ("milk", ["dairy milk", "cow milk", "buffalo milk", "milk"]),
   ("flour", ["wheat flour", "atta", "maida", "all purpose flour", "flour"]),
   ("oil", ["cooking oil", "vegetable oil", "ghee", "butter", "oil"]),
   ("spices", ["salt", "pepper", "turmeric", "cumin", "coriander", "garam masala", "spices"]),
   ("vegetables", ["carrot", "beans", "peas", "cabbage", "cauliflower", "vegetables"]),
   ("chicken", ["chicken", "chicken breast", "chicken thigh", "chicken meat"]),
   ("fish", ["fish", "salmon", "tuna", "mackerel", "fish fillet"]),
   ("bread", ["bread", "roti", "chapati", "naan", "paratha"]),
   ("curd", ["curd", "yogurt", "dahi", "curd"]),
   ("paneer", ["paneer", "cottage cheese", "paneer"]),
   ("cheese", ["cheese", "cheddar", "mozzarella", "cheese"]),
   ("sugar", ["sugar", "jaggery", "honey", "sweetener"]),
   ("salt", ["salt", "namak", "salt"]),
   ("turmeric", ["turmeric", "haldi", "turmeric powder"]),
   ("cumin", ["cumin", "jeera", "cumin seeds"]),
   ("coriander", ["coriander", "dhania", "coriander leaves", "coriander powder"])]

/-- `ai_meal_generator.py get_similar_ingredients`. -/
def get_similar_ingredients (ingredient : String) : List String :=
  let ingredient_lower := pyStrip (pyLower ingredient)
  match similar_map.find? (fun p => pyInB ingredient_lower p.1 || pyInB p.1 ingredient_lower) with
  | some p => p.2
  | none => [ingredient]

/-- `ai_meal_generator.py get_meal_type_variations`. -/
def get_meal_type_variations (meal_type : String) : List String :=
  let mt := pyLower meal_type
  if mt = "breakfast" then ["breakfast", "morning", "breakfast meal"]
  else if mt = "lunch" then ["lunch", "afternoon", "lunch meal"]
  else if mt = "dinner" then ["dinner", "evening", "dinner meal", "night"]
  else if mt = "snack" then ["snack", "evening snack", "morning snack", "light meal"]
  else [mt]

/-- The meal name the matcher scores against:
`meal.get('Food Item', meal.get('name', '')).lower()`. -/
def matcherMealName (meal : Meal) : String :=
  pyLower (meal.foodItem.getD (meal.name.getD ""))

/-- The ingredient list of the full-match pass
(`'Ingredients' in meal` first, then `'ingredients'`), each element
`.strip().lower()`-ed; Python iteration over a string value yields its
characters. -/
def mealIngredientsFull (meal : Meal) : List String :=
  match meal.ingredientsU with
  | some v => v.iter.map (fun i => pyLower (pyStrip i))
  | none =>
    match meal.ingredientsL with
    | some v => v.iter.map (fun i => pyLower (pyStrip i))
    | none => []

/-- The ingredient list of the partial-match pass
(`meal.get('Ingredients', meal.get('ingredients', []))`), each element
`.lower().strip()`-ed. -/
def mealIngredientsPartial (meal : Meal) : List String :=
  (meal.ingredientsU.getD (meal.ingredientsL.getD (.list []))).iter.map
    (fun i => pyStrip (pyLower i))

/-- The score one requested ingredient contributes against one meal
ingredient (the exact / either-direction-substring / synonym ladder at
`ai_meal_generator.py:567`). -/
def pairScore (user_ingredient meal_ingredient : String) : Int :=
  if user_ingredient = meal_ingredient then 10
  else if pyInB user_ingredient meal_ingredient || pyInB meal_ingredient user_ingredient then 5
  else if (get_similar_ingredients user_ingredient).any (fun sim => pyInB sim meal_ingredient) then 3
  else 0

/-- The score one requested ingredient contributes against a meal
(`ai_meal_generator.py:562` – `581`): the name hit, the per-meal-ingredient
ladder, and the synonym-in-name bonus. -/
def ingredientContribution (ui meal_name : String) (meal_ingredients : List String) : Int :=
  (if pyInB ui meal_name then (8 : Int) else 0)
  + (meal_ingredients.map (pairScore ui)).sum
  + (if (get_similar_ingredients ui).any (fun sim => pyInB sim meal_name) then 2 else 0)

/-- The category bonus (`ai_meal_generator.py:584` – `588`). -/
def categoryBonus (meal_type meal_category : String) : Int :=
  if pyInB (pyLower meal_type) meal_category then 15
  else if (get_meal_type_variations meal_type).any (fun w => pyInB w meal_category) then 10
  else 0

/-- The region bonus (`ai_meal_generator.py:591`). -/
def regionBonus (state : String) (meal : Meal) : Int :=
  if pyInB (pyLower state) (pyLower (meal.region.getD "")) then 3 else 0

/-- The full-match score of one meal (`ai_meal_generator.py:549` – `596`):
per-ingredient contributions, the category bonus, the region bonus and
twice the carried `medical_score`. -/
def matchScore (ingredient_list : List String) (meal_type state : String) (meal : Meal) : Int :=
  (ingredient_list.map (fun ui =>
      ingredientContribution ui (matcherMealName meal) (mealIngredientsFull meal))).sum
  + categoryBonus meal_type (pyLower (meal.category.getD ""))
  + regionBonus state meal
  + 2 * meal.medicalScore.getD 0

/-- `matched_ingredients`: the requested ingredients found (by substring) in
the meal's ingredient list. -/
def matchedIngredients (ingredient_list : List String) (meal : Meal) : List String :=
  ingredient_list.filter (fun ing =>
    (mealIngredientsFull meal).any (fun meal_ing => pyInB ing meal_ing))

/-- One entry of `matching_meals` / `partial_matches`. -/
structure MatchResult where
  meal : Meal
  score : Int
  matched_ingredients : List String
  deriving Repr, DecidableEq

/-- The full-match pass: each meal with positive score becomes a
`MatchResult` (order of the input preserved; the sort comes after). -/
def matchingMeals (ingredient_list : List String) (meal_type state : String)
    (meals : List Meal) : List MatchResult :=
  meals.filterMap (fun meal =>
    let score := matchScore ingredient_list meal_type state meal
    if 0 < score then
      some { meal := meal, score := score,
             matched_ingredients := matchedIngredients ingredient_list meal }
    else none)

/-- The partial-match pass (`ai_meal_generator.py:662`): the first requested
ingredient appearing in the meal name, inside a meal ingredient, or
containing a meal ingredient yields a score-5 result. -/
def partialMatches (ingredient_list : List String) (meals : List Meal) : List MatchResult :=
  meals.filterMap (fun meal =>
    let meal_ingredients := mealIngredientsPartial meal
    let meal_name := matcherMealName meal
    (ingredient_list.find? (fun ingredient =>
        pyInB ingredient meal_name
        || meal_ingredients.any (fun ing => pyInB ingredient ing)
        || meal_ingredients.any (fun ing => pyInB ing ingredient))).map
      (fun ingredient => { meal := meal, score := 5, matched_ingredients := [ingredient] }))

/-- The deduplication identity: the display name stripped, lowercased, with
`' '`, `'-'` and `'+'` removed (`ai_meal_generator.py:615`). -/
def normalizedName (meal : Meal) : String :=
  let meal_name := pyStrip (meal.foodItem.getD (meal.name.getD "Unknown"))
  pyRemoveChar '+' (pyRemoveChar '-' (pyRemoveChar ' ' (pyLower meal_name)))

/-- The `seen_meals` walk: keep an entry only if its normalized name has not
occurred before. -/
def dedupSeen (seen : List String) : List MatchResult → List MatchResult
  | [] => []
  | m :: rest =>
    if seen.contains (normalizedName m.meal) then dedupSeen seen rest
    else m :: dedupSeen (normalizedName m.meal :: seen) rest

/-- Deduplication of a match list by normalized meal name. -/
def dedupByNormName (l : List MatchResult) : List MatchResult :=
  dedupSeen [] l

/-- `"─" * 40`. -/
def sepLine : String := String.mk (List.replicate 40 '─')

/-- The per-result block of the full-match response (`ai_meal_generator.py:632`). -/
def fullMatchEntry (i : Nat) (m : MatchResult) : String :=
  let meal_name := m.meal.foodItem.getD (m.meal.name.getD "Unknown")
  let calories := m.meal.approxCalories.getD (m.meal.calories.getD 200)
  let ingredients_text :=
    String.intercalate ", " ((m.meal.ingredientsU.getD (m.meal.ingredientsL.getD (.list []))).iter.take 5)
  toString i ++ ". " ++ meal_name ++ "\n"
    ++ "Category: " ++ m.meal.category.getD "General" ++ "\n"
    ++ "Calories: " ++ ratDisplay calories ++ "\n"
    ++ "Match Score: " ++ toString m.score ++ "/10\n"
    ++ "Uses: " ++ String.intercalate ", " m.matched_ingredients ++ "\n"
    ++ "Ingredients: " ++ ingredients_text ++ "...\n\n"

/-- The full-match response (`ai_meal_generator.py:625` – `649`). -/
def fullMatchResponse (ingredients meal_type diet_type state : String)
    (matching : List MatchResult) (top_matches : List MatchResult) : String :=
  "Perfect " ++ pyTitle meal_type ++ " Matches for Your Ingredients\n\n"
    ++ "Your Ingredients: " ++ ingredients ++ "\n"
    ++ "Meal Type: " ++ pyTitle meal_type ++ "\n"
    ++ "Diet: " ++ pyTitle diet_type ++ "\n"
    ++ "Region: " ++ pyTitle state ++ "\n\n"
    ++ sepLine ++ "\n\n"
    ++ String.join (top_matches.enum.map (fun p => fullMatchEntry (p.1 + 1) p.2))
    ++ sepLine ++ "\n"
    ++ "*Found " ++ toString matching.length ++ " meals using your ingredients!*"

/-- The per-result block of the partial-match response (`ai_meal_generator.py:702`). -/
def partialMatchEntry (i : Nat) (m : MatchResult) : String :=
  let meal_name := m.meal.foodItem.getD (m.meal.name.getD "Unknown")
  let calories := m.meal.approxCalories.getD (m.meal.calories.getD 200)
  let ingredients_text :=
    String.intercalate ", " ((m.meal.ingredientsU.getD (m.meal.ingredientsL.getD (.list []))).iter.take 5)
  toString i ++ ". " ++ meal_name ++ "\n"
    ++ "Category: " ++ m.meal.category.getD "General" ++ "\n"
    ++ "Calories: " ++ ratDisplay calories ++ "\n"
    ++ "Match Score: " ++ toString m.score ++ "/10 (Partial Match)\n"
    ++ "Uses: " ++ String.intercalate ", " m.matched_ingredients ++ "\n"
    ++ "Ingredients: " ++ ingredients_text ++ "...\n\n"

/-- The partial-match response (`ai_meal_generator.py:695` – `720`). -/
def partialMatchResponse (ingredients meal_type diet_type state : String)
    (pmatches : List MatchResult) (top_partials : List MatchResult) : String :=
  "Partial " ++ pyTitle meal_type ++ " Matches for Your Ingredients\n\n"
    ++ "Your Ingredients: " ++ ingredients ++ "\n"
    ++ "Meal Type: " ++ pyTitle meal_type ++ "\n"
    ++ "Diet: " ++ pyTitle diet_type ++ "\n"
    ++ "Region: " ++ pyTitle state ++ "\n\n"
    ++ sepLine ++ "\n\n"
    ++ String.join (top_partials.enum.map (fun p => partialMatchEntry (p.1 + 1) p.2))
    ++ sepLine ++ "\n"
    ++ "Found " ++ toString pmatches.length ++ " partial matches!\n\n"
    ++ "💡 Tip: These meals use some of your ingredients. You may need to add more ingredients for a complete meal."

/-- First-occurrence deduplication of a string list; models the order in
which `list(set(...))` is consumed (the CPython set order is unspecified;
no claim inspects it). -/
def dedupStringsAux (seen : List String) : List String → List String
  | [] => []
  | s :: rest =>
    if seen.contains s then dedupStringsAux seen rest
    else s :: dedupStringsAux (s :: seen) rest

/-- First-occurrence deduplication of a string list. -/
def dedupStrings (l : List String) : List String := dedupStringsAux [] l

/-- `ai_meal_generator.py generate_fallback_ingredient_response`. -/
def generate_fallback_ingredient_response (ingredients diet_type state : String)
    (meal_type : String := "meal") : String :=
  let ingredient_list := (pySplitComma ingredients).map (fun i => pyLower (pyStrip i))
  let suggestions := ingredient_list.foldl (fun acc ing =>
    let similar := get_similar_ingredients ing
    if similar.length > 1 then acc ++ similar.take 3 else acc) []
  let unique_suggestions := (dedupStrings suggestions).take 8
  "No Perfect " ++ pyTitle meal_type ++ " Matches Found\n\n"
    ++ "Your Ingredients: " ++ ingredients ++ "\n"
    ++ "Meal Type: " ++ pyTitle meal_type ++ "\n\n"
    ++ "Suggestions:\n"
    ++ "1. Add more ingredients - Try adding common items like rice, dal, spices\n"
    ++ "2. Use regular meal plan - Get complete meal suggestions\n"
    ++ "3. Try different ingredients - Use more basic ingredients\n\n"
    ++ "Common additions for " ++ meal_type ++ " in " ++ diet_type ++ " " ++ pyTitle state
    ++ " cuisine:\n"
    ++ "- Rice, dal, vegetables, spices\n"
    ++ "- Onions, tomatoes, potatoes\n"
    ++ "- Oil, salt, turmeric, cumin\n\n"
    ++ "Similar ingredients you could try:\n"
    ++ (if unique_suggestions ≠ [] then String.intercalate ", " unique_suggestions
        else "Try basic ingredients like rice, dal, vegetables")
    ++ "\n\nTry our regular meal plan feature for complete meal suggestions!"

end AiGen

namespace AiGen

/-- The exception that escapes `generate_ingredient_based_meal_plan`: the
`except` handler at `ai_meal_generator.py:815` calls
`generate_fallback_ingredient_response(ingredients, diet_type, state, …)`,
and when the caught exception was raised before the locals `diet_type` /
`state` were bound (lines 501–502), that reference itself raises an
uncaught `NameError` (`UnboundLocalError`). -/
inductive PyErr where
  | uncaughtNameError
  deriving Repr, DecidableEq

/-- The `diet_mapping` dict at `ai_meal_generator.py:506`. -/
def diet_mapping : List (String × String) :=
  [("veg", "Vegetarian"),
   ("vegetarian", "Vegetarian"),
   ("non-veg", "Non-Vegetarian"),
   ("non-vegetarian", "Non-Vegetarian"),
   ("vegan", "Vegan"),
   ("jain", "Jain"),
   ("eggitarian", "Eggitarian"),
   ("keto", "Keto"),
   ("mixed", "Mixed")]

/-- The orchestrator's environment: the catalog files, whether the
generation capability is configured (`AI_AVAILABLE`), and its outcome —
`some t` for an HTTP 200 whose extracted content is `t` (returned
verbatim), `none` for a non-200 status, timeout or exception (the code
handles all three by falling back). -/
structure OrchEnv where
  fs : Fs
  aiAvailable : Bool
  aiResult : Option String

/-- `ai_meal_generator.py generate_ingredient_based_meal_plan`.

Control flow of the source, in order: ingredient parsing; preference
extraction (a non-string `diet_type`/`state` value raises inside `try`
*before* those locals are bound, so the handler's own reference to them
escapes as `PyErr.uncaughtNameError`); catalog loading from the state CSV
(`max_meals=100` — unclamped), the legacy JSON redirect and the two other
state catalogs; optional medical filtering (a non-string `medical` value
raises *after* `diet_type`/`state` are bound, so the handler returns the
fallback text); the scored full-match pass with stable descending sort and
name deduplication; the partial-match pass; then the generation capability
or the static fallback.  The prompt assembly (lines 732–798) only feeds
the opaque capability and is summarised by `env.aiResult`; the Firebase
save is a side store outside the core. -/
def generate_ingredient_based_meal_plan (env : OrchEnv) (cache : Cache (List Meal))
    (user_data : List (String × PyVal)) (ingredients : String)
    (meal_type : String := "meal") : Except PyErr String × Cache (List Meal) :=
  let ingredient_list :=
    ((pySplitComma ingredients).filter (fun i => pyStrip i ≠ "")).map
      (fun i => pyLower (pyStrip i))
  match (pyGet user_data "diet_type" (pyGet user_data "diet" (.str "vegetarian"))).lower with
  | none => (.error .uncaughtNameError, cache)
  | some diet_type =>
    match (pyGet user_data "state" (.str "maharashtra")).lower with
    | none => (.error .uncaughtNameError, cache)
    | some state =>
      let csv_diet_type :=
        match diet_mapping.find? (fun p => p.1 = diet_type) with
        | some p => p.2
        | none => "Vegetarian"
      let r1 :=
        load_meal_data_from_csv env.fs cache (some state) (some csv_diet_type) none 100
      let r2 := load_meal_data_from_json env.fs r1.2 state
      let csv_meals := r1.1
      let json_meals := r2.1
      let all_meals0 := csv_meals ++ (if json_meals.isEmpty then [] else json_meals)
      let other_states : List String :=
        if state ≠ "karnataka" ∧ state ≠ "andhra" then ["karnataka", "andhra"] else []
      let rfold := other_states.foldl
        (fun acc other_state =>
          let r := load_meal_data_from_json env.fs acc.2 other_state
          (acc.1 ++ (if r.1.isEmpty then [] else r.1), r.2))
        (all_meals0, r2.2)
      let all_meals := rfold.1
      let c3 := rfold.2
      let medVal := pyGet user_data "medical" (.str "None")
      let medStep : Except Unit (List Meal) :=
        if medVal.truthy then
          match medVal.lower with
          | none => .error ()
          | some ml =>
            if ml ≠ "none" then
              match medVal with
              | .str s => .ok (filter_meals_by_medical_condition all_meals s)
              | .nonStr => .error ()
            else .ok all_meals
        else .ok all_meals
      match medStep with
      | .error _ =>
        (.ok (generate_fallback_ingredient_response ingredients diet_type state meal_type), c3)
      | .ok all_meals =>
        let matching_meals :=
          pyStableSortDesc (fun m => m.score)
            (matchingMeals ingredient_list meal_type state all_meals)
        if matching_meals ≠ [] then
          let unique_matches := dedupByNormName matching_meals
          let top_matches := unique_matches.take 3
          (.ok (fullMatchResponse ingredients meal_type diet_type state matching_meals top_matches), c3)
        else
          let partial_matches := partialMatches ingredient_list all_meals
          if partial_matches ≠ [] then
            let unique_partials := dedupByNormName partial_matches
            let top_partials := unique_partials.take 3
            (.ok (partialMatchResponse ingredients meal_type diet_type state partial_matches top_partials), c3)
          else if !env.aiAvailable then
            (.ok (generate_fallback_ingredient_response ingredients diet_type state meal_type), c3)
          else
            match env.aiResult with
            | some ai_response => (.ok ai_response, c3)
            | none =>
              (.ok (generate_fallback_ingredient_response ingredients diet_type state meal_type), c3)

end AiGen

namespace AiGen

/-! ### Heap rendering of the medical filter (for the aliasing claim)

`filter_meals_by_medical_condition` mutates the accepted meal dicts in
place (`meal['medical_score'] = score`), and the loader cache stores the
loaded lists by reference.  To reason about that sharing, the dicts live
in an explicit heap (`List Meal`, addressed by position) and the cache
stores lists of addresses; the filter below is the same algorithm as
`medicalDecision`, threading the heap. -/

/-- The filter loop over the referenced meals: accepted dicts are updated
in place in the heap and their addresses kept. -/
def medicalHeapLoop (cfg : MedicalConfig) : List Meal → List Nat → List Meal × List Nat
  | heap, [] => (heap, [])
  | heap, id :: rest =>
    match heap.get? id with
    | none => medicalHeapLoop cfg heap rest
    | some meal =>
      match medicalDecision cfg meal with
      | some s =>
        let heap' := heap.set id { meal with medicalScore := some s }
        let r := medicalHeapLoop cfg heap' rest
        (r.1, id :: r.2)
      | none => medicalHeapLoop cfg heap rest

/-- Heap form of `filter_meals_by_medical_condition`: returns the heap after
the in-place writes and the accepted addresses sorted by descending score. -/
def filter_meals_by_medical_condition_heap (heap : List Meal) (ids : List Nat)
    (medical_condition : String) : List Meal × List Nat :=
  if medical_condition = "" ∨ pyLower medical_condition = "none" then (heap, ids)
  else
    match findMedicalConfig (pyLower medical_condition) with
    | none => (heap, ids)
    | some cfg =>
      let r := medicalHeapLoop cfg heap ids
      (r.1, pyStableSortDesc (fun i => ((r.1.getD i {}).medicalScore).getD 0) r.2)

/-- A later loader call that hits the cache (`ai_meal_generator.py:237`)
returns the stored references; dereferencing them reads the current heap. -/
def cachedLoadHeap (cache : Cache (List Nat)) (heap : List Meal) (key : String) :
    Option (List Meal) :=
  (cacheGet cache key).map (fun ids => ids.map (fun i => heap.getD i {}))

end AiGen

/-- A meal with its `medical_score` key erased, for frame statements. -/
def Meal.clearScore (m : Meal) : Meal := { m with medicalScore := none }

/-! ## Concrete instances used by counterexamples and witnesses -/

/-- A meal in the AI-module loader's own output shape: its calories sit
under the lowercase `calories` key, which the medical filter never reads. -/
def mealRiceBowl : Meal :=
  { name := some "Rice Bowl",
    calories := some 450,
    ingredientsL := some (.list ["rice"]),
    mealType := some "lunch",
    dietType := some "Vegetarian" }

/-- A CSV row that is complete and clean but declares zero calories. -/
def rowZeroCal : CsvRow :=
  [("Diet Type", "Vegetarian"), ("Meal", "lunch"), ("Dish Combo", "Khichdi"),
   ("Ingredients (per serving)", "rice, dal"), ("Calories (kcal)", "0")]

/-- A catalog file holding only the zero-calorie row. -/
def fileZeroCal : Main.MainCsvFile := { utf8Rows := some [rowZeroCal] }

/-- What `convert_csv_row_to_meal` makes of the zero-calorie row. -/
def mealZeroCal : Meal :=
  { foodItem := some "Khichdi",
    ingredientsU := some (.list ["rice", "dal"]),
    approxCalories := some 0,
    healthImpact := some "Good for health",
    calorieLevel := some "low",
    category := some "lunch",
    region := some "India",
    specialNote := some "Diet: Vegetarian",
    carbs := some 0,
    protein := some 0,
    fat := some 0 }

/-- A minimal valid row for the AI-module loader. -/
def dishRow : CsvRow := [("Dish Combo", "Dish"), ("Calories (kcal)", "100")]

/-- A catalog with 51 loadable rows under the default path. -/
def fs51 : AiGen.Fs := [("maharastra.csv", List.replicate 51 dishRow)]

/-- A catalog file whose only row fails validation (required fields
missing), so every load yields zero meals and nothing is ever cached. -/
def fileInvalidRow : Main.MainCsvFile := { utf8Rows := some [[("Dish Combo", "x")]] }

/-- A meal carrying a negative `medical_score`, name-matched by the
ingredient `dosa`: its full-match score is exactly 0 yet the partial pass
matches it. -/
def mealNegScore : Meal := { name := some "dosa", medicalScore := some (-5) }

/-- A meal that matches nothing about the ingredient `kiwi`. -/
def mealIdli : Meal := { name := some "idli" }

/-- An orchestrator environment with no catalog files and no generation
capability configured. -/
def envNoAI : AiGen.OrchEnv := { fs := [], aiAvailable := false, aiResult := none }

/-- An orchestrator environment in which the `diet_type` value of the user
dict is a non-string object. -/
def userDataNonStrDiet : List (String × PyVal) := [("diet_type", PyVal.nonStr)]

/-! ## General lemmas -/

theorem str_append_ne_empty (s t : String) (h : s ≠ "") : s ++ t ≠ "" := by
  intro he
  apply h
  have hd := congrArg String.data he
  rw [String.data_append] at hd
  rcases List.append_eq_nil.mp hd with ⟨h1, _⟩
  exact String.ext h1

theorem toNat_ofNat_of_valid (n : Nat) (h : Nat.isValidChar n) : (Char.ofNat n).toNat = n := by
  simp [Char.ofNat, h, Char.ofNatAux, Char.toNat, UInt32.toNat, UInt32.ofNat]

theorem char_eq_iff_toNat (a b : Char) : a = b ↔ a.toNat = b.toNat := by
  rw [Char.ext_iff, UInt32.ext_iff]; rfl

theorem char_le_iff_toNat (a b : Char) : a ≤ b ↔ a.toNat ≤ b.toNat := by
  rw [Char.le_def, UInt32.le_def]; rfl

/-- Whitespace-status is invariant under ASCII lowercasing. -/
theorem isWhitespace_lowerChar (c : Char) : (lowerChar c).isWhitespace = c.isWhitespace := by
  unfold lowerChar
  split
  · rename_i h
    obtain ⟨h1, h2⟩ := h
    have l1 : 65 ≤ c.toNat := by simpa using (char_le_iff_toNat 'A' c).mp h1
    have l2 : c.toNat ≤ 90 := by simpa using (char_le_iff_toNat c 'Z').mp h2
    have hval : Nat.isValidChar (c.toNat + 32) := by left; omega
    have htn : (Char.ofNat (c.toNat + 32)).toNat = c.toNat + 32 := toNat_ofNat_of_valid _ hval
    have hws : ∀ d : Char, d.isWhitespace =
        (decide (d.toNat = 32) || decide (d.toNat = 9) || decide (d.toNat = 13) ||
         decide (d.toNat = 10)) := by
      intro d
      have sp : (' ' : Char).toNat = 32 := by decide
      have tb : ('\t' : Char).toNat = 9 := by decide
      have cr : ('\x0d' : Char).toNat = 13 := by decide
      have nl : ('\n' : Char).toNat = 10 := by decide
      simp only [Char.isWhitespace, char_eq_iff_toNat, sp, tb, cr, nl]
    rw [hws, hws, htn]
    have e1 : ¬ (c.toNat + 32 = 32) := by omega
    have e2 : ¬ (c.toNat + 32 = 9) := by omega
    have e3 : ¬ (c.toNat + 32 = 13) := by omega
    have e4 : ¬ (c.toNat + 32 = 10) := by omega
    have f1 : ¬ (c.toNat = 32) := by omega
    have f2 : ¬ (c.toNat = 9) := by omega
    have f3 : ¬ (c.toNat = 13) := by omega
    have f4 : ¬ (c.toNat = 10) := by omega
    simp [e1, e2, e3, e4, f1, f2, f3, f4]
  · rfl

/-- `dropWhile` on whitespace commutes with a whitespace-preserving map. -/
theorem dropWhile_ws_map (f : Char → Char) (hf : ∀ c, (f c).isWhitespace = c.isWhitespace)
    (l : List Char) :
    (l.map f).dropWhile Char.isWhitespace = (l.dropWhile Char.isWhitespace).map f := by
  rw [List.dropWhile_map]
  have hcomp : Char.isWhitespace ∘ f = Char.isWhitespace := by
    funext c
    simp [Function.comp, hf]
  rw [hcomp]

/-- `strip` commutes with a whitespace-preserving character map. -/
theorem pyStripList_map (f : Char → Char) (hf : ∀ c, (f c).isWhitespace = c.isWhitespace)
    (l : List Char) : pyStripList (l.map f) = (pyStripList l).map f := by
  unfold pyStripList
  rw [dropWhile_ws_map f hf, ← List.map_reverse, dropWhile_ws_map f hf, List.map_reverse]

/-- Python `s.strip().lower()` and `s.lower().strip()` agree. -/
theorem pyStrip_pyLower_comm (s : String) : pyStrip (pyLower s) = pyLower (pyStrip s) := by
  unfold pyStrip pyLower
  simp only
  rw [pyStripList_map lowerChar isWhitespace_lowerChar]

/-- A list of nonnegative integers with zero sum is all zeros. -/
theorem list_sum_zero_of_nonneg {l : List Int} (h0 : ∀ x ∈ l, 0 ≤ x) (hs : l.sum = 0) :
    ∀ x ∈ l, x = 0 := by
  induction l with
  | nil => intro x hx; cases hx
  | cons a t ih =>
    have ha : 0 ≤ a := h0 a (by simp)
    have ht : ∀ x ∈ t, 0 ≤ x := fun x hx => h0 x (by simp [hx])
    have hts : 0 ≤ t.sum := List.sum_nonneg ht
    have hsum : a + t.sum = 0 := by simpa using hs
    have ha0 : a = 0 := by omega
    have hts0 : t.sum = 0 := by omega
    intro x hx
    rcases List.mem_cons.mp hx with rfl | hx
    · exact ha0
    · exact ih ht hts0 x hx

/-! ## Cache lemmas -/

theorem filter_take_keys_eq_drop {α} (c : List (String × α)) (n : Nat)
    (h : (c.map Prod.fst).Nodup) :
    c.filter (fun kv => !(((c.map Prod.fst).take n).contains kv.1)) = c.drop n := by
  induction c generalizing n with
  | nil => simp
  | cons kv rest ih =>
    cases n with
    | zero =>
      simp only [List.take_zero, List.drop_zero]
      apply List.filter_eq_self.mpr
      intro a _
      simp [List.contains]
    | succ n =>
      simp only [List.map_cons, List.take_succ_cons, List.drop_succ_cons]
      rw [List.filter_cons]
      have hk : (((kv.1 :: ((rest.map Prod.fst).take n)).contains kv.1)) = true := by
        simp [List.contains_cons]
      rw [hk]
      simp only [Bool.not_true]
      rw [if_neg Bool.false_ne_true]
      have hnd := List.nodup_cons.mp h
      have hcongr : rest.filter (fun x => !((kv.1 :: ((rest.map Prod.fst).take n)).contains x.1))
          = rest.filter (fun x => !(((rest.map Prod.fst).take n).contains x.1)) := by
        apply List.filter_congr
        intro x hx
        have hne : x.1 ≠ kv.1 := by
          intro he
          apply hnd.1
          rw [← he]
          exact List.mem_map_of_mem Prod.fst hx
        simp [List.contains_cons, hne]
      rw [hcongr]
      exact ih n hnd.2

theorem cacheKeys_cachePut {α} (c : Cache α) (k : String) (v : α) :
    cacheKeys (cachePut c k v) =
      if c.any (fun kv => kv.1 = k) then cacheKeys c else cacheKeys c ++ [k] := by
  unfold cachePut cacheKeys
  split
  · rw [List.map_map]
    apply List.map_congr_left
    intro kv _
    by_cases hk : kv.1 = k <;> simp [Function.comp, hk]
  · simp

theorem cacheKeys_nodup_cachePut {α} (c : Cache α) (k : String) (v : α)
    (h : (cacheKeys c).Nodup) : (cacheKeys (cachePut c k v)).Nodup := by
  rw [cacheKeys_cachePut]
  split
  · exact h
  · rename_i hany
    have hnotin : k ∉ cacheKeys c := by
      intro hmem
      rcases List.mem_map.mp hmem with ⟨kv, hkv, hfst⟩
      have : c.any (fun kv => kv.1 = k) = true := by
        apply List.any_eq_true.mpr
        exact ⟨kv, hkv, by simp [hfst]⟩
      simp [this] at hany
    simp [List.nodup_append, h, hnotin]

/-! ## Claim theorems -/

/-- **C8** — `cleanup_cache` preserves the cache-size bound: a cache of at
most `MAX_CACHE_SIZE` (1000) entries is left unchanged; a larger one loses
exactly its oldest-inserted `size − MAX_CACHE_SIZE + 10` keys, leaving
`MAX_CACHE_SIZE − 10` entries; consequently any put followed by cleanup
leaves at most `MAX_CACHE_SIZE` entries. -/
theorem claim_C8 {α} (cache : Cache α) (hnd : (cacheKeys cache).Nodup) :
    (cacheSize cache ≤ Main.MAX_CACHE_SIZE → Main.cleanup_cache cache = cache) ∧
    (Main.MAX_CACHE_SIZE < cacheSize cache →
      Main.cleanup_cache cache = cache.drop (cacheSize cache - Main.MAX_CACHE_SIZE + 10) ∧
      cacheSize (Main.cleanup_cache cache) = Main.MAX_CACHE_SIZE - 10) ∧
    (∀ (k : String) (v : α),
      cacheSize (Main.cleanup_cache (cachePut cache k v)) ≤ Main.MAX_CACHE_SIZE) := by
  have hclean : ∀ (c : Cache α), (cacheKeys c).Nodup → Main.MAX_CACHE_SIZE < cacheSize c →
      Main.cleanup_cache c = c.drop (cacheSize c - Main.MAX_CACHE_SIZE + 10) := by
    intro c hc hlt
    unfold Main.cleanup_cache
    rw [if_pos (by exact Nat.lt_iff_add_one_le.mp hlt)]
    exact filter_take_keys_eq_drop c _ hc
  refine ⟨?_, ?_, ?_⟩
  · intro hle
    unfold Main.cleanup_cache
    rw [if_neg]
    omega
  · intro hlt
    refine ⟨hclean cache hnd hlt, ?_⟩
    rw [hclean cache hnd hlt]
    show (cache.drop _).length = _
    rw [List.length_drop]
    unfold cacheSize at hlt ⊢
    unfold Main.MAX_CACHE_SIZE at hlt ⊢
    omega
  · intro k v
    by_cases hbig : Main.MAX_CACHE_SIZE < cacheSize (cachePut cache k v)
    · rw [hclean _ (cacheKeys_nodup_cachePut cache k v hnd) hbig]
      show (List.length _) ≤ _
      rw [List.length_drop]
      simp only [cacheSize, Main.MAX_CACHE_SIZE] at hbig ⊢
      omega
    · unfold Main.cleanup_cache
      rw [if_neg (by omega)]
      omega

/-- Witness for C8 at a concrete two-entry cache. -/
theorem claim_C8_witness :
    Main.cleanup_cache ([("a", 1), ("b", 2)] : Cache Nat) = [("a", 1), ("b", 2)] :=
  (claim_C8 ([("a", 1), ("b", 2)] : Cache Nat) (by decide)).1 (by decide)

/-- **C2** — the code violates the medical ceiling: a meal whose calories
sit under the AI-module loader's own `calories` key (here 450 kcal, above
the 400 kcal diabetes ceiling) passes `filter_meals_by_medical_condition`
for `diabetes`, because the filter reads calories only from
`approx_calories` / `Calories (kcal)` and falls back to the default 200. -/
theorem claim_C2 :
    AiGen.filter_meals_by_medical_condition [mealRiceBowl] "diabetes"
      = [{ mealRiceBowl with medicalScore := some 0 }] ∧
    mealRiceBowl.calories = some 450 ∧ (400 : Rat) < 450 := by
  refine ⟨by decide, by decide, by norm_num⟩

/-- **C3 counterexample** — a complete, clean row with `Calories (kcal)`
equal to `"0"` (outside the claimed half-open interval `(0, 2000]`) passes
`validate_csv_row` and contributes a meal to the loader's returned
sequence. -/
theorem claim_C3_counterexample :
    Main.validate_csv_row rowZeroCal = true ∧
    pyParseFloat (rowGetD rowZeroCal "Calories (kcal)" "0") = some 0 ∧
    ¬ ((0 : Rat) < 0) ∧
    (Main.load_meal_data_from_csv fileZeroCal [] none none 50).meals = [mealZeroCal] := by
  refine ⟨by decide, by decide, by norm_num, by decide⟩

theorem rowLoopUtf8_sound (dt mt : Option String) (mm : Nat) :
    ∀ (rows : List CsvRow) (n f i : Nat) (m : Meal), m ∈ Main.rowLoopUtf8 dt mt mm rows n f i →
      ∃ row ∈ rows, Main.validate_csv_row row = true ∧
        Main.convert_csv_row_to_meal row = some m := by
  intro rows
  induction rows with
  | nil =>
    intro n f i m hm
    simp [Main.rowLoopUtf8] at hm
  | cons row rest ih =>
    intro n f i m hm
    unfold Main.rowLoopUtf8 at hm
    split at hm
    · simp at hm
    split at hm
    · simp at hm
    split at hm
    · rename_i hval
      split at hm
      · simp at hm
      · obtain ⟨r, hr, h1, h2⟩ := ih _ _ _ _ hm
        exact ⟨r, List.mem_cons_of_mem _ hr, h1, h2⟩
    · rename_i hval
      have hvalid : Main.validate_csv_row row = true := by
        simpa using hval
      split at hm
      · obtain ⟨r, hr, h1, h2⟩ := ih _ _ _ _ hm
        exact ⟨r, List.mem_cons_of_mem _ hr, h1, h2⟩
      split at hm
      · obtain ⟨r, hr, h1, h2⟩ := ih _ _ _ _ hm
        exact ⟨r, List.mem_cons_of_mem _ hr, h1, h2⟩
      split at hm
      · rename_i meal hconv
        rcases List.mem_cons.mp hm with rfl | hm'
        · exact ⟨row, List.mem_cons_self _ _, hvalid, hconv⟩
        · obtain ⟨r, hr, h1, h2⟩ := ih _ _ _ _ hm'
          exact ⟨r, List.mem_cons_of_mem _ hr, h1, h2⟩
      · obtain ⟨r, hr, h1, h2⟩ := ih _ _ _ _ hm
        exact ⟨r, List.mem_cons_of_mem _ hr, h1, h2⟩

theorem rowLoopLatin1_sound (mm : Nat) :
    ∀ (rows : List CsvRow) (f : Nat) (m : Meal), m ∈ Main.rowLoopLatin1 mm rows f →
      ∃ row ∈ rows, Main.validate_csv_row row = true ∧
        Main.convert_csv_row_to_meal row = some m := by
  intro rows
  induction rows with
  | nil =>
    intro f m hm
    simp [Main.rowLoopLatin1] at hm
  | cons row rest ih =>
    intro f m hm
    unfold Main.rowLoopLatin1 at hm
    split at hm
    · simp at hm
    split at hm
    · rename_i hvalid
      split at hm
      · rename_i meal hconv
        rcases List.mem_cons.mp hm with rfl | hm'
        · exact ⟨row, List.mem_cons_self _ _, hvalid, hconv⟩
        · obtain ⟨r, hr, h1, h2⟩ := ih _ _ hm'
          exact ⟨r, List.mem_cons_of_mem _ hr, h1, h2⟩
      · obtain ⟨r, hr, h1, h2⟩ := ih _ _ hm
        exact ⟨r, List.mem_cons_of_mem _ hr, h1, h2⟩
    · obtain ⟨r, hr, h1, h2⟩ := ih _ _ hm
      exact ⟨r, List.mem_cons_of_mem _ hr, h1, h2⟩

/-- **C3 (amended)** — the loader excludes a row exactly when a required
field is missing/blank or its calories lie outside the **closed** interval
`[0, 2000]` (a parsed value of exactly 0 is accepted, contrary to the
claim's `(0, 2000]`): every validated row has all required fields present
and non-blank and calories `c` with `0 ≤ c ≤ 2000`, and every meal either
row loop emits comes from a validated row. -/
theorem claim_C3 :
    (∀ row : CsvRow, Main.validate_csv_row row = true →
      (∀ f ∈ Main.REQUIRED_FIELDS, ∃ v, rowGet row f = some v ∧ v ≠ "" ∧ pyStrip v ≠ "") ∧
      ∃ c, pyParseFloat (rowGetD row "Calories (kcal)" "0") = some c ∧ 0 ≤ c ∧ c ≤ 2000) ∧
    (∀ (dt mt : Option String) (mm : Nat) (rows : List CsvRow) (n f i : Nat) (m : Meal),
      m ∈ Main.rowLoopUtf8 dt mt mm rows n f i →
      ∃ row ∈ rows, Main.validate_csv_row row = true ∧
        Main.convert_csv_row_to_meal row = some m) ∧
    (∀ (mm : Nat) (rows : List CsvRow) (f : Nat) (m : Meal),
      m ∈ Main.rowLoopLatin1 mm rows f →
      ∃ row ∈ rows, Main.validate_csv_row row = true ∧
        Main.convert_csv_row_to_meal row = some m) := by
  refine ⟨?_, fun dt mt mm => rowLoopUtf8_sound dt mt mm, fun mm => rowLoopLatin1_sound mm⟩
  intro row hval
  unfold Main.validate_csv_row at hval
  simp only [Bool.and_eq_true] at hval
  obtain ⟨⟨⟨hreq, _⟩, hcal⟩, _⟩ := hval
  constructor
  · intro f hf
    have := List.all_eq_true.mp hreq f hf
    revert this
    match hrg : rowGet row f with
    | none => simp
    | some v =>
      intro hv
      simp only [Bool.and_eq_true, bne_iff_ne] at hv
      exact ⟨v, rfl, hv.1, hv.2⟩
  · revert hcal
    match hpf : pyParseFloat (rowGetD row "Calories (kcal)" "0") with
    | none => simp
    | some c =>
      intro hc
      simp only [Bool.not_eq_eq_eq_not, Bool.not_true, Bool.or_eq_false_iff,
        decide_eq_false_iff_not, not_lt] at hc
      exact ⟨c, rfl, hc.1, hc.2⟩

/-- Witness for C3 at the zero-calorie row: validation succeeds and the
parsed calories satisfy the amended bounds `0 ≤ 0 ≤ 2000`. -/
theorem claim_C3_witness :
    ∃ c, pyParseFloat (rowGetD rowZeroCal "Calories (kcal)" "0") = some c ∧
      0 ≤ c ∧ c ≤ 2000 :=
  (claim_C3.1 rowZeroCal (by decide)).2

theorem mealPasses_vegan_banned (medical_condition : String) (meal : Meal)
    (hpass : Main.mealPasses "vegan" medical_condition meal = true) :
    (Main.VEGAN_BANNED.any fun x => pyInB x (Main.ingredientsStrLower meal)) = false := by
  by_cases h : (Main.VEGAN_BANNED.any fun x => pyInB x (Main.ingredientsStrLower meal)) = true
  · exfalso
    unfold Main.mealPasses at hpass
    simp [h] at hpass
  · simpa using h

/-- **C4** — vegan filtering: no meal surviving the Preference Filter with
diet type `vegan` (after lowercasing/synonym normalization) has an
ingredient list whose lowercased string form contains `milk`, `ghee`,
`curd`, `egg`, `meat`, `fish` or `chicken` as a substring. -/
theorem claim_C4 (meals : List Meal) (diet_type medical_condition : String)
    (hveg : pyLower diet_type = "vegan") :
    ∀ meal ∈ Main.filter_meals_by_preferences meals diet_type medical_condition,
      ∀ b ∈ Main.VEGAN_BANNED, ¬ pyIn b (Main.ingredientsStrLower meal) := by
  intro meal hmem b hb
  unfold Main.filter_meals_by_preferences at hmem
  rw [hveg] at hmem
  simp only [show ¬(("vegan" : String) = "veg" ∨ ("vegan" : String) = "vegetarian") by simp,
    show ¬(("vegan" : String) = "non-veg" ∨ ("vegan" : String) = "non-vegetarian") by simp,
    if_false] at hmem
  rw [List.mem_filter] at hmem
  have hfalse := mealPasses_vegan_banned medical_condition meal hmem.2
  intro hpy
  have : (Main.VEGAN_BANNED.any fun x => pyInB x (Main.ingredientsStrLower meal)) = true :=
    List.any_eq_true.mpr ⟨b, hb, by simpa [pyInB] using hpy⟩
  rw [this] at hfalse
  cases hfalse

/-- Witness for C4: in a two-meal list the chapati meal survives the vegan
filter and its ingredient string does not contain `milk`. -/
theorem claim_C4_witness :
    ¬ pyIn "milk" (Main.ingredientsStrLower
      { foodItem := some "Chapati", ingredientsU := some (.list ["wheat flour", "water"]) }) :=
  claim_C4
    [{ foodItem := some "Kheer", ingredientsU := some (.list ["milk", "rice"]) },
     { foodItem := some "Chapati", ingredientsU := some (.list ["wheat flour", "water"]) }]
    "Vegan" "none" (by decide)
    { foodItem := some "Chapati", ingredientsU := some (.list ["wheat flour", "water"]) }
    (by decide) "milk" (by decide)

/-- **C6 counterexample** — the AI-module loader does not clamp `max_meals`:
called with `max_meals = 51` on a catalog of 51 loadable rows it returns
51 meals, contradicting the claimed hard ceiling of 50 for every call to
the catalog loader. -/
theorem claim_C6_counterexample :
    50 < (AiGen.load_meal_data_from_csv fs51 [] none none none 51).1.length := by
  decide

theorem rowLoopUtf8_length_le (dt mt : Option String) (mm : Nat) :
    ∀ (rows : List CsvRow) (n f i : Nat),
      (Main.rowLoopUtf8 dt mt mm rows n f i).length ≤ mm - f := by
  intro rows
  induction rows with
  | nil => intro n f i; simp [Main.rowLoopUtf8]
  | cons row rest ih =>
    intro n f i
    unfold Main.rowLoopUtf8
    split
    · simp
    · split
      · simp
      · split
        · split
          · simp
          · exact ih (n + 1) f (i + 1)
        · split
          · exact ih (n + 1) f i
          · split
            · exact ih (n + 1) f i
            · split
              · simp only [List.length_cons]
                have := ih (n + 1) (f + 1) i
                omega
              · exact ih (n + 1) f i

theorem rowLoopLatin1_length_le (mm : Nat) :
    ∀ (rows : List CsvRow) (f : Nat), (Main.rowLoopLatin1 mm rows f).length ≤ mm - f := by
  intro rows
  induction rows with
  | nil => intro f; simp [Main.rowLoopLatin1]
  | cons row rest ih =>
    intro f
    unfold Main.rowLoopLatin1
    split
    · simp
    · split
      · split
        · simp only [List.length_cons]
          have := ih (f + 1)
          omega
        · exact ih f
      · exact ih f

theorem cacheGet_some_mem {α} {c : Cache α} {k : String} {v : α} (h : cacheGet c k = some v) :
    ∃ kv ∈ c, kv.2 = v := by
  unfold cacheGet at h
  match hf : List.find? (fun kv => kv.1 = k) c with
  | none => rw [hf] at h; cases h
  | some kv =>
    rw [hf] at h
    exact ⟨kv, List.mem_of_find?_eq_some hf, Option.some.inj h⟩

theorem mem_cachePut {α} {c : Cache α} {k : String} {v : α} {kv : String × α}
    (h : kv ∈ cachePut c k v) : kv ∈ c ∨ kv = (k, v) := by
  unfold cachePut at h
  split at h
  · rcases List.mem_map.mp h with ⟨kv', hkv', heq⟩
    by_cases hk : kv'.1 = k
    · right
      rw [if_pos hk] at heq
      exact heq.symm
    · left
      rw [if_neg hk] at heq
      rwa [← heq]
  · rcases List.mem_append.mp h with h | h
    · left; exact h
    · right; simpa using h

theorem mem_main_cleanup {α} {c : Cache α} {kv : String × α}
    (h : kv ∈ Main.cleanup_cache c) : kv ∈ c := by
  unfold Main.cleanup_cache at h
  split at h
  · exact List.mem_of_mem_filter h
  · exact h

/-- **C6 (amended)** — only `main.py`'s loader clamps: for every call to the
`main.py` loader (any `max_meals`, including values above 50), provided
every cached list respects the bound, the returned sequence has at most 50
meals and the bound is preserved in the cache; the AI-module loader has no
clamp (see the counterexample returning 51). -/
theorem claim_C6 (file : Main.MainCsvFile) (cache : Cache (List Meal))
    (dt mt : Option String) (mm : Nat)
    (hinv : ∀ kv ∈ cache, kv.2.length ≤ 50) :
    (Main.load_meal_data_from_csv file cache dt mt mm).meals.length ≤ 50 ∧
    ∀ kv ∈ (Main.load_meal_data_from_csv file cache dt mt mm).cache, kv.2.length ≤ 50 := by
  have hfb : (Main.get_fallback_meal_data "general").length ≤ 50 := by
    simp [Main.get_fallback_meal_data]
  have hclamp : Main.clampMaxMeals mm ≤ 50 := by
    unfold Main.clampMaxMeals Main.MAX_MEALS_PER_REQUEST
    split <;> omega
  have hmeals : ∀ (f : Main.MainCsvFile) (dt' mt' : Option String),
      (Main.readMeals f dt' mt' (Main.clampMaxMeals mm)).length ≤ 50 := by
    intro f dt' mt'
    unfold Main.readMeals
    match hu : f.utf8Rows with
    | some rows =>
      exact le_trans (rowLoopUtf8_length_le dt' mt' _ rows 1 0 0) (by omega)
    | none =>
      match hl : f.latin1Rows with
      | some rows =>
        exact le_trans (rowLoopLatin1_length_le _ rows 0) (by omega)
      | none => simp
  unfold Main.load_meal_data_from_csv
  split
  · exact ⟨hfb, hinv⟩
  split
  · exact ⟨hfb, hinv⟩
  · simp only []
    split
    · rename_i v hv
      rcases cacheGet_some_mem hv with ⟨kv, hkv, hkv2⟩
      exact ⟨hkv2 ▸ hinv kv hkv, hinv⟩
    · split
      · constructor
        · exact hmeals file _ _
        · intro kv hkv
          simp only [] at hkv
          split at hkv
          · rcases mem_cachePut (mem_main_cleanup hkv) with h | h
            · exact hinv kv h
            · rw [h]
              exact hmeals file _ _
          · rcases mem_cachePut hkv with h | h
            · exact hinv kv h
            · rw [h]
              exact hmeals file _ _
      · exact ⟨hfb, hinv⟩

/-- Witness for C6 at a concrete over-limit request (`max_meals = 100`)
against the one-row catalog, starting from an empty cache. -/
theorem claim_C6_witness :
    (Main.load_meal_data_from_csv fileZeroCal [] none none 100).meals.length ≤ 50 :=
  (claim_C6 fileZeroCal [] none none 100 (by intro kv h; cases h)).1

theorem cacheGet_append_single {α} (c : Cache α) (k : String) (v : α)
    (h : ∀ kv ∈ c, kv.1 ≠ k) : cacheGet (c ++ [(k, v)]) k = some v := by
  induction c with
  | nil => simp [cacheGet]
  | cons kv rest ih =>
    have hk : kv.1 ≠ k := h kv (by simp)
    unfold cacheGet
    rw [List.cons_append, List.find?_cons_of_neg _ (by simpa using hk)]
    exact ih (fun kv' hkv' => h kv' (by simp [hkv']))

theorem cacheGet_none_forall {α} {c : Cache α} {k : String} (h : cacheGet c k = none) :
    ∀ kv ∈ c, kv.1 ≠ k := by
  intro kv hkv
  unfold cacheGet at h
  match hf : List.find? (fun kv => kv.1 = k) c with
  | some kv' => rw [hf] at h; cases h
  | none =>
    have := List.find?_eq_none.mp hf kv hkv
    simpa using this

/-- After a miss, storing under `key` (with the FIFO eviction that the
loader runs when the dict grows too large) leaves the fresh entry
retrievable: eviction only ever removes a prefix of the older keys. -/
theorem cacheGet_after_store {α} (c : Cache α) (k : String) (v : α)
    (hnone : cacheGet c k = none) :
    cacheGet (if cacheSize (cachePut c k v) > Main.MAX_CACHE_SIZE
              then Main.cleanup_cache (cachePut c k v) else cachePut c k v) k = some v := by
  have hne := cacheGet_none_forall hnone
  have hput : cachePut c k v = c ++ [(k, v)] := by
    unfold cachePut
    rw [if_neg]
    intro hany
    rcases List.any_eq_true.mp hany with ⟨kv, hm, he⟩
    exact hne kv hm (by simpa using he)
  rw [hput]
  split
  · rename_i hbig
    unfold Main.cleanup_cache
    rw [if_pos (by exact hbig)]
    have hlen : (c ++ [(k, v)]).length = c.length + 1 := by simp
    have hmle : cacheSize (c ++ [(k, v)]) - Main.MAX_CACHE_SIZE + 10 ≤ c.length := by
      simp only [cacheSize, hlen] at hbig ⊢
      unfold Main.MAX_CACHE_SIZE at hbig ⊢
      omega
    have hkeys : (cacheKeys (c ++ [(k, v)])).take
          (cacheSize (c ++ [(k, v)]) - Main.MAX_CACHE_SIZE + 10)
        = (c.map Prod.fst).take (cacheSize (c ++ [(k, v)]) - Main.MAX_CACHE_SIZE + 10) := by
      unfold cacheKeys
      rw [List.map_append]
      exact List.take_append_of_le_length (by simpa using hmle)
    rw [hkeys]
    have hnotmem : k ∉ (c.map Prod.fst).take
        (cacheSize (c ++ [(k, v)]) - Main.MAX_CACHE_SIZE + 10) := by
      intro hmem
      have hmem' : k ∈ c.map Prod.fst := List.take_subset _ _ hmem
      rcases List.mem_map.mp hmem' with ⟨kv, hkv, hfst⟩
      exact hne kv hkv hfst
    rw [List.filter_append]
    have hkeep : List.filter (fun kv => !(((c.map Prod.fst).take
        (cacheSize (c ++ [(k, v)]) - Main.MAX_CACHE_SIZE + 10)).contains kv.1)) [(k, v)]
        = [(k, v)] := by
      simp [List.filter, hnotmem]
    rw [hkeep]
    apply cacheGet_append_single
    intro kv hkv
    exact hne kv (List.mem_of_mem_filter hkv)
  · exact cacheGet_append_single c k v hne

theorem main_load_eq_not_present (file : Main.MainCsvFile) (cache : Cache (List Meal))
    (dt mt : Option String) (mm : Nat) (h : file.present = false) :
    Main.load_meal_data_from_csv file cache dt mt mm
      = ⟨Main.get_fallback_meal_data "general", cache, false⟩ := by
  unfold Main.load_meal_data_from_csv
  rw [h]
  rfl

theorem main_load_eq_oversize (file : Main.MainCsvFile) (cache : Cache (List Meal))
    (dt mt : Option String) (mm : Nat) (hp : file.present = true) (ho : file.oversize = true) :
    Main.load_meal_data_from_csv file cache dt mt mm
      = ⟨Main.get_fallback_meal_data "general", cache, false⟩ := by
  unfold Main.load_meal_data_from_csv
  rw [hp, ho]
  rfl

theorem main_load_eq_cached (file : Main.MainCsvFile) (cache : Cache (List Meal))
    (dt mt : Option String) (mm : Nat) (v : List Meal)
    (hp : file.present = true) (ho : file.oversize = false)
    (hc : cacheGet cache (Main.mainCacheKey (Main.sanitizeDietType dt)
      (Main.sanitizeMealType mt) (Main.clampMaxMeals mm)) = some v) :
    Main.load_meal_data_from_csv file cache dt mt mm = ⟨v, cache, false⟩ := by
  unfold Main.load_meal_data_from_csv
  rw [hp, ho]
  simp only [Bool.not_true, Bool.false_eq_true, if_false, Bool.not_false, if_true, hc]

theorem main_load_eq_miss_pos (file : Main.MainCsvFile) (cache : Cache (List Meal))
    (dt mt : Option String) (mm : Nat)
    (hp : file.present = true) (ho : file.oversize = false)
    (hc : cacheGet cache (Main.mainCacheKey (Main.sanitizeDietType dt)
      (Main.sanitizeMealType mt) (Main.clampMaxMeals mm)) = none)
    (hlen : 0 < (Main.readMeals file (Main.sanitizeDietType dt) (Main.sanitizeMealType mt)
      (Main.clampMaxMeals mm)).length) :
    Main.load_meal_data_from_csv file cache dt mt mm
      = ⟨Main.readMeals file (Main.sanitizeDietType dt) (Main.sanitizeMealType mt)
           (Main.clampMaxMeals mm),
         (let cache1 := cachePut cache (Main.mainCacheKey (Main.sanitizeDietType dt)
            (Main.sanitizeMealType mt) (Main.clampMaxMeals mm))
            (Main.readMeals file (Main.sanitizeDietType dt) (Main.sanitizeMealType mt)
              (Main.clampMaxMeals mm));
          if cacheSize cache1 > Main.MAX_CACHE_SIZE then Main.cleanup_cache cache1 else cache1),
         true⟩ := by
  unfold Main.load_meal_data_from_csv
  rw [hp, ho]
  simp only [Bool.not_true, Bool.false_eq_true, if_false, Bool.not_false, if_true, hc]
  rw [if_pos hlen]

theorem main_load_eq_miss_zero (file : Main.MainCsvFile) (cache : Cache (List Meal))
    (dt mt : Option String) (mm : Nat)
    (hp : file.present = true) (ho : file.oversize = false)
    (hc : cacheGet cache (Main.mainCacheKey (Main.sanitizeDietType dt)
      (Main.sanitizeMealType mt) (Main.clampMaxMeals mm)) = none)
    (hlen : ¬ 0 < (Main.readMeals file (Main.sanitizeDietType dt) (Main.sanitizeMealType mt)
      (Main.clampMaxMeals mm)).length) :
    Main.load_meal_data_from_csv file cache dt mt mm
      = ⟨Main.get_fallback_meal_data "general", cache, true⟩ := by
  unfold Main.load_meal_data_from_csv
  rw [hp, ho]
  simp only [Bool.not_true, Bool.false_eq_true, if_false, Bool.not_false, if_true, hc]
  rw [if_neg hlen]

/-- **C7 (amended)** — two successive identical loader calls on an
unchanged file return list-equal results; the second call is served from
the cache (no file read) whenever the key is present after the first call
— which happens exactly when the first call produced a non-empty validated
result; a first call yielding nothing caches nothing and the second call
reads the file again (see the counterexample). -/
theorem claim_C7 (file : Main.MainCsvFile) (cache : Cache (List Meal))
    (dt mt : Option String) (mm : Nat) :
    (Main.load_meal_data_from_csv file
        (Main.load_meal_data_from_csv file cache dt mt mm).cache dt mt mm).meals
      = (Main.load_meal_data_from_csv file cache dt mt mm).meals ∧
    (∀ v, cacheGet (Main.load_meal_data_from_csv file cache dt mt mm).cache
        (Main.mainCacheKey (Main.sanitizeDietType dt) (Main.sanitizeMealType mt)
          (Main.clampMaxMeals mm)) = some v →
      (Main.load_meal_data_from_csv file
        (Main.load_meal_data_from_csv file cache dt mt mm).cache dt mt mm).didRead = false) := by
  match hp : file.present with
  | false =>
    rw [main_load_eq_not_present file cache dt mt mm hp]
    rw [main_load_eq_not_present file cache dt mt mm hp]
    exact ⟨rfl, fun v _ => rfl⟩
  | true =>
    match ho : file.oversize with
    | true =>
      rw [main_load_eq_oversize file cache dt mt mm hp ho]
      rw [main_load_eq_oversize file cache dt mt mm hp ho]
      exact ⟨rfl, fun v _ => rfl⟩
    | false =>
      match hc : cacheGet cache (Main.mainCacheKey (Main.sanitizeDietType dt)
          (Main.sanitizeMealType mt) (Main.clampMaxMeals mm)) with
      | some v =>
        rw [main_load_eq_cached file cache dt mt mm v hp ho hc]
        rw [main_load_eq_cached file cache dt mt mm v hp ho hc]
        exact ⟨rfl, fun v' _ => rfl⟩
      | none =>
        by_cases hlen : 0 < (Main.readMeals file (Main.sanitizeDietType dt)
            (Main.sanitizeMealType mt) (Main.clampMaxMeals mm)).length
        · rw [main_load_eq_miss_pos file cache dt mt mm hp ho hc hlen]
          have hstored := cacheGet_after_store cache
            (Main.mainCacheKey (Main.sanitizeDietType dt) (Main.sanitizeMealType mt)
              (Main.clampMaxMeals mm))
            (Main.readMeals file (Main.sanitizeDietType dt) (Main.sanitizeMealType mt)
              (Main.clampMaxMeals mm)) hc
          rw [main_load_eq_cached file _ dt mt mm _ hp ho hstored]
          exact ⟨rfl, fun v' _ => rfl⟩
        · rw [main_load_eq_miss_zero file cache dt mt mm hp ho hc hlen]
          rw [main_load_eq_miss_zero file cache dt mt mm hp ho hc hlen]
          refine ⟨rfl, fun v' hv' => ?_⟩
          rw [hc] at hv'
          cases hv'

/-- Witness for C7: after a first call that loads the one valid row, the
second identical call is a cache hit and does not read the file. -/
theorem claim_C7_witness :
    (Main.load_meal_data_from_csv fileZeroCal
      (Main.load_meal_data_from_csv fileZeroCal [] none none 50).cache none none 50).didRead
      = false :=
  (claim_C7 fileZeroCal [] none none 50).2 [mealZeroCal] (by decide)

/-- **C7 counterexample** — when the first call finds no valid meals
(empty result is never cached), the second identical call reads the
file's contents again, contradicting the claim that the second call is
always served from the cache without re-reading. -/
theorem claim_C7_counterexample :
    (Main.load_meal_data_from_csv fileInvalidRow [] none none 50).didRead = true ∧
    (Main.load_meal_data_from_csv fileInvalidRow
      (Main.load_meal_data_from_csv fileInvalidRow [] none none 50).cache none none 50).didRead
      = true := by
  exact ⟨by decide, by decide⟩

theorem dedupSeen_sublist (seen : List String) (l : List AiGen.MatchResult) :
    (AiGen.dedupSeen seen l).Sublist l := by
  induction l generalizing seen with
  | nil => simp [AiGen.dedupSeen]
  | cons m rest ih =>
    unfold AiGen.dedupSeen
    split
    · exact (ih seen).trans (List.sublist_cons_self m rest)
    · exact (ih _).cons₂ m

theorem dedupSeen_spec (l : List AiGen.MatchResult) (seen : List String) :
    (AiGen.dedupSeen seen l).Pairwise
      (fun a b => AiGen.normalizedName a.meal ≠ AiGen.normalizedName b.meal) ∧
    ∀ m ∈ AiGen.dedupSeen seen l, AiGen.normalizedName m.meal ∉ seen := by
  induction l generalizing seen with
  | nil => exact ⟨List.Pairwise.nil, by simp [AiGen.dedupSeen]⟩
  | cons m rest ih =>
    unfold AiGen.dedupSeen
    split
    · rename_i hcon
      exact ⟨(ih seen).1, (ih seen).2⟩
    · rename_i hcon
      have hm_notin : AiGen.normalizedName m.meal ∉ seen := by
        intro hmem
        exact hcon (by simpa [List.elem_iff] using hmem)
      constructor
      · apply List.Pairwise.cons
        · intro b hb
          have hb' := (ih (AiGen.normalizedName m.meal :: seen)).2 b hb
          intro he
          exact hb' (by rw [← he]; exact List.mem_cons_self _ _)
        · exact (ih _).1
      · intro x hx
        rcases List.mem_cons.mp hx with rfl | hx'
        · exact hm_notin
        · have := (ih (AiGen.normalizedName m.meal :: seen)).2 x hx'
          intro hmem
          exact this (List.mem_cons_of_mem _ hmem)

instance descIdxRel_total {α : Type} (key : α → Int) : IsTotal (Nat × α) (descIdxRel key) :=
  ⟨by
    intro a b
    unfold descIdxRel
    omega⟩

instance descIdxRel_trans {α : Type} (key : α → Int) : IsTrans (Nat × α) (descIdxRel key) :=
  ⟨by
    intro a b c hab hbc
    unfold descIdxRel at hab hbc ⊢
    omega⟩

theorem pyStableSortDescIdx_sorted {α : Type} (key : α → Int) (l : List α) :
    (pyStableSortDescIdx key l).Pairwise (descIdxRel key) :=
  List.sorted_insertionSort (descIdxRel key) l.enum

theorem pyStableSortDescIdx_perm {α : Type} (key : α → Int) (l : List α) :
    (pyStableSortDescIdx key l).Perm l.enum :=
  List.perm_insertionSort (descIdxRel key) l.enum

theorem pyStableSortDescIdx_strict {α : Type} (key : α → Int) (l : List α) :
    (pyStableSortDescIdx key l).Pairwise
      (fun a b => key b.2 < key a.2 ∨ (key a.2 = key b.2 ∧ a.1 < b.1)) := by
  have hsorted := pyStableSortDescIdx_sorted key l
  have hnodup : ((pyStableSortDescIdx key l).map Prod.fst).Nodup := by
    have hpn : (l.enum.map Prod.fst).Nodup := List.nodup_enum_map_fst l
    exact (((pyStableSortDescIdx_perm key l).map Prod.fst).nodup_iff).mpr hpn
  have hpne : (pyStableSortDescIdx key l).Pairwise (fun a b => a.1 ≠ b.1) :=
    (List.pairwise_map.mp hnodup)
  refine (hsorted.and hpne).imp ?_
  intro a b hab
  rcases hab with ⟨hr, hne⟩
  unfold descIdxRel at hr
  omega

theorem pyStableSortDesc_pairwise_desc {α : Type} (key : α → Int) (l : List α) :
    (pyStableSortDesc key l).Pairwise (fun a b => key b ≤ key a) := by
  unfold pyStableSortDesc
  apply List.pairwise_map.mpr
  refine (pyStableSortDescIdx_sorted key l).imp ?_
  intro a b hab
  unfold descIdxRel at hab
  omega

theorem partialMatches_score_eq (ingredient_list : List String) (meals : List Meal) :
    ∀ m ∈ AiGen.partialMatches ingredient_list meals, m.score = 5 := by
  intro m hm
  rcases List.mem_filterMap.mp hm with ⟨meal, _, hsome⟩
  rcases Option.map_eq_some'.mp hsome with ⟨ing, _, hmk⟩
  rw [← hmk]

/-- **C5** — in the matcher's result lists (the deduplicated full-match
top list and the deduplicated partial-match top list) no two entries share
a normalized name; entries are in descending score order; and the sort
behind the full-match list is the stable descending one — strictly
descending scores, with ties strictly in original input order (the partial
list is built in input order with constant score 5). -/
theorem claim_C5 (meals : List Meal) (ingredient_list : List String) (meal_type state : String) :
    ((AiGen.dedupByNormName (pyStableSortDesc (fun m => m.score)
        (AiGen.matchingMeals ingredient_list meal_type state meals))).take 3).Pairwise
      (fun a b => AiGen.normalizedName a.meal ≠ AiGen.normalizedName b.meal) ∧
    ((AiGen.dedupByNormName (AiGen.partialMatches ingredient_list meals)).take 3).Pairwise
      (fun a b => AiGen.normalizedName a.meal ≠ AiGen.normalizedName b.meal) ∧
    ((AiGen.dedupByNormName (pyStableSortDesc (fun m => m.score)
        (AiGen.matchingMeals ingredient_list meal_type state meals))).take 3).Pairwise
      (fun a b => b.score ≤ a.score) ∧
    ((AiGen.dedupByNormName (AiGen.partialMatches ingredient_list meals)).take 3).Pairwise
      (fun a b => b.score ≤ a.score) ∧
    (pyStableSortDescIdx (fun m => m.score)
        (AiGen.matchingMeals ingredient_list meal_type state meals)).Pairwise
      (fun a b => b.2.score < a.2.score ∨ (a.2.score = b.2.score ∧ a.1 < b.1)) ∧
    ((AiGen.dedupByNormName (pyStableSortDesc (fun m => m.score)
        (AiGen.matchingMeals ingredient_list meal_type state meals))).take 3).Sublist
      (pyStableSortDesc (fun m => m.score)
        (AiGen.matchingMeals ingredient_list meal_type state meals)) := by
  have hsubFull : ((AiGen.dedupByNormName (pyStableSortDesc (fun m => m.score)
      (AiGen.matchingMeals ingredient_list meal_type state meals))).take 3).Sublist
      (pyStableSortDesc (fun m => m.score)
        (AiGen.matchingMeals ingredient_list meal_type state meals)) :=
    (List.take_sublist _ _).trans (dedupSeen_sublist [] _)
  have hsubPart : ((AiGen.dedupByNormName (AiGen.partialMatches ingredient_list meals)).take
      3).Sublist (AiGen.partialMatches ingredient_list meals) :=
    (List.take_sublist _ _).trans (dedupSeen_sublist [] _)
  refine ⟨?_, ?_, ?_, ?_, ?_, hsubFull⟩
  · exact List.Pairwise.sublist (List.take_sublist _ _) (dedupSeen_spec _ []).1
  · exact List.Pairwise.sublist (List.take_sublist _ _) (dedupSeen_spec _ []).1
  · exact List.Pairwise.sublist hsubFull (pyStableSortDesc_pairwise_desc _ _)
  · apply List.pairwise_of_forall_mem_list
    intro a ha b hb
    have ha5 := partialMatches_score_eq ingredient_list meals a (hsubPart.subset ha)
    have hb5 := partialMatches_score_eq ingredient_list meals b (hsubPart.subset hb)
    omega
  · exact pyStableSortDescIdx_strict _ _

theorem pairScore_nonneg (a b : String) : 0 ≤ AiGen.pairScore a b := by
  unfold AiGen.pairScore
  split_ifs <;> omega

theorem pairScore_eq_zero {a b : String} (h : AiGen.pairScore a b = 0) :
    a ≠ b ∧ ¬ pyIn a b ∧ ¬ pyIn b a := by
  unfold AiGen.pairScore at h
  split_ifs at h with h1 h2 h3
  · omega
  · omega
  · omega
  · push_neg at h2
    rcases Bool.or_eq_false_iff.mp (by simpa using h2) with ⟨hab, hba⟩
    exact ⟨h1, by simpa [pyInB] using hab, by simpa [pyInB] using hba⟩

theorem ingredientContribution_nonneg (ui meal_name : String) (mi : List String) :
    0 ≤ AiGen.ingredientContribution ui meal_name mi := by
  unfold AiGen.ingredientContribution
  have hsum : 0 ≤ (mi.map (AiGen.pairScore ui)).sum := by
    apply List.sum_nonneg
    intro x hx
    rcases List.mem_map.mp hx with ⟨b, _, hb⟩
    rw [← hb]
    exact pairScore_nonneg ui b
  split_ifs <;> omega

theorem categoryBonus_nonneg (a b : String) : 0 ≤ AiGen.categoryBonus a b := by
  unfold AiGen.categoryBonus
  split_ifs <;> omega

theorem regionBonus_nonneg (a : String) (m : Meal) : 0 ≤ AiGen.regionBonus a m := by
  unfold AiGen.regionBonus
  split_ifs <;> omega

theorem ingredientContribution_eq_zero {ui meal_name : String} {mi : List String}
    (h : AiGen.ingredientContribution ui meal_name mi = 0) :
    ¬ pyIn ui meal_name ∧ ∀ g ∈ mi, ¬ pyIn ui g ∧ ¬ pyIn g ui := by
  unfold AiGen.ingredientContribution at h
  have hsum : 0 ≤ (mi.map (AiGen.pairScore ui)).sum := by
    apply List.sum_nonneg
    intro x hx
    rcases List.mem_map.mp hx with ⟨b, _, hb⟩
    rw [← hb]
    exact pairScore_nonneg ui b
  split_ifs at h with h1 h2
  · exfalso; omega
  · exfalso; omega
  · exfalso; omega
  · have hpairs : (mi.map (AiGen.pairScore ui)).sum = 0 := by omega
    refine ⟨by simpa [pyInB] using h1, ?_⟩
    intro g hg
    have hz := list_sum_zero_of_nonneg (l := mi.map (AiGen.pairScore ui))
      (fun x hx => by
        rcases List.mem_map.mp hx with ⟨b, _, hb⟩
        rw [← hb]
        exact pairScore_nonneg ui b) hpairs
    have hg0 : AiGen.pairScore ui g = 0 := hz _ (List.mem_map_of_mem _ hg)
    exact (pairScore_eq_zero hg0).2

/-- The partial pass and the full pass extract the same ingredient list
(`strip` and ASCII `lower` commute). -/
theorem mealIngredients_partial_eq_full (meal : Meal) :
    AiGen.mealIngredientsPartial meal = AiGen.mealIngredientsFull meal := by
  unfold AiGen.mealIngredientsPartial AiGen.mealIngredientsFull
  have hmap : ∀ v : StrOrList,
      v.iter.map (fun i => pyStrip (pyLower i)) = v.iter.map (fun i => pyLower (pyStrip i)) := by
    intro v
    apply List.map_congr_left
    intro i _
    exact pyStrip_pyLower_comm i
  match hU : meal.ingredientsU with
  | some v => simp [hmap v]
  | none =>
    match hL : meal.ingredientsL with
    | some v => simp [hmap v]
    | none => simp [StrOrList.iter]

theorem matchScore_zero_parts {ingredient_list : List String} {meal_type state : String}
    {meal : Meal} (hms : 0 ≤ meal.medicalScore.getD 0)
    (h0 : AiGen.matchScore ingredient_list meal_type state meal = 0) :
    ∀ ui ∈ ingredient_list,
      AiGen.ingredientContribution ui (AiGen.matcherMealName meal)
        (AiGen.mealIngredientsFull meal) = 0 := by
  unfold AiGen.matchScore at h0
  have hsum : 0 ≤ (ingredient_list.map (fun ui =>
      AiGen.ingredientContribution ui (AiGen.matcherMealName meal)
        (AiGen.mealIngredientsFull meal))).sum := by
    apply List.sum_nonneg
    intro x hx
    rcases List.mem_map.mp hx with ⟨b, _, hb⟩
    rw [← hb]
    exact ingredientContribution_nonneg _ _ _
  have hcat := categoryBonus_nonneg meal_type (pyLower (meal.category.getD ""))
  have hreg := regionBonus_nonneg state meal
  have hzero : (ingredient_list.map (fun ui =>
      AiGen.ingredientContribution ui (AiGen.matcherMealName meal)
        (AiGen.mealIngredientsFull meal))).sum = 0 := by omega
  intro ui hui
  have := list_sum_zero_of_nonneg (l := ingredient_list.map _)
    (fun x hx => by
      rcases List.mem_map.mp hx with ⟨b, _, hb⟩
      rw [← hb]
      exact ingredientContribution_nonneg _ _ _) hzero
  exact this _ (List.mem_map_of_mem _ hui)

/-- **C9 (amended)** — provided no meal carries a negative `medical_score`
(the medical filter only ever writes nonnegative scores), if the full-match
pass scores every meal 0, the partial-match pass finds nothing: each
partial criterion already awards a positive full-match score.  The
PartialMatch stage then never produces a result. -/
theorem claim_C9 (meals : List Meal) (ingredient_list : List String) (meal_type state : String)
    (hms : ∀ m ∈ meals, 0 ≤ m.medicalScore.getD 0)
    (hzero : ∀ m ∈ meals, AiGen.matchScore ingredient_list meal_type state m = 0) :
    AiGen.partialMatches ingredient_list meals = [] := by
  unfold AiGen.partialMatches
  apply List.filterMap_eq_nil_iff.mpr
  intro meal hmeal
  have hparts := matchScore_zero_parts (hms meal hmeal) (hzero meal hmeal)
  have hfind : ingredient_list.find? (fun ingredient =>
      pyInB ingredient (AiGen.matcherMealName meal)
      || (AiGen.mealIngredientsPartial meal).any (fun ing => pyInB ingredient ing)
      || (AiGen.mealIngredientsPartial meal).any (fun ing => pyInB ing ingredient)) = none := by
    apply List.find?_eq_none.mpr
    intro ing hing
    have hc := ingredientContribution_eq_zero (hparts ing hing)
    rw [mealIngredients_partial_eq_full]
    have h1 : pyInB ing (AiGen.matcherMealName meal) = false := by
      simpa [pyInB] using hc.1
    have h2 : (AiGen.mealIngredientsFull meal).any (fun g => pyInB ing g) = false := by
      apply List.any_eq_false.mpr
      intro g hg
      simpa [pyInB] using (hc.2 g hg).1
    have h3 : (AiGen.mealIngredientsFull meal).any (fun g => pyInB g ing) = false := by
      apply List.any_eq_false.mpr
      intro g hg
      simpa [pyInB] using (hc.2 g hg).2
    simp [h1, h2, h3]
  simp only [hfind]
  rfl

/-- **C9 counterexample** — as literally stated the claim fails: a meal
carrying `medical_score = -5` whose name equals the requested ingredient
scores exactly 0 in the full-match pass (8 + 2 − 10), yet the partial pass
matches it, so the PartialMatch stage does produce a result. -/
theorem claim_C9_counterexample :
    (∀ m ∈ [mealNegScore], AiGen.matchScore ["dosa"] "meal" "maharashtra" m = 0) ∧
    AiGen.partialMatches ["dosa"] [mealNegScore] ≠ [] := by
  exact ⟨by decide, by decide⟩

/-- Witness for C9: a request (`kiwi`) matching nothing in a one-meal
catalog scores 0 everywhere and the partial pass is empty. -/
theorem claim_C9_witness : AiGen.partialMatches ["kiwi"] [mealIdli] = [] :=
  claim_C9 [mealIdli] ["kiwi"] "meal" "maharashtra" (by decide) (by decide)

theorem clearScore_update (meal : Meal) (s : Int) :
    Meal.clearScore { meal with medicalScore := some s } = Meal.clearScore meal := rfl

theorem medicalHeapLoop_frame (cfg : AiGen.MedicalConfig) :
    ∀ (ids : List Nat) (heap : List Meal) (i : Nat),
      ((AiGen.medicalHeapLoop cfg heap ids).1.get? i).map Meal.clearScore
        = (heap.get? i).map Meal.clearScore := by
  intro ids
  induction ids with
  | nil => intro heap i; rfl
  | cons id rest ih =>
    intro heap i
    unfold AiGen.medicalHeapLoop
    match hg : heap.get? id with
    | none =>
      simp only [hg]
      exact ih heap i
    | some meal =>
      match hd : AiGen.medicalDecision cfg meal with
      | none =>
        simp only [hg, hd]
        exact ih heap i
      | some s =>
        simp only [hg, hd]
        rw [ih _ i]
        by_cases hii : id = i
        · subst hii
          rw [List.get?_set_eq, hg]
          rfl
        · rw [List.get?_set_ne _ _ hii]

theorem medicalHeapLoop_subset (cfg : AiGen.MedicalConfig) :
    ∀ (ids : List Nat) (heap : List Meal) (i : Nat),
      i ∈ (AiGen.medicalHeapLoop cfg heap ids).2 → i ∈ ids := by
  intro ids
  induction ids with
  | nil => intro heap i h; exact absurd h (by simp [AiGen.medicalHeapLoop])
  | cons id rest ih =>
    intro heap i h
    unfold AiGen.medicalHeapLoop at h
    match hg : heap.get? id with
    | none =>
      simp only [hg] at h
      exact List.mem_cons_of_mem _ (ih heap i h)
    | some meal =>
      match hd : AiGen.medicalDecision cfg meal with
      | none =>
        simp only [hg, hd] at h
        exact List.mem_cons_of_mem _ (ih heap i h)
      | some s =>
        simp only [hg, hd, List.mem_cons] at h
        rcases h with rfl | h
        · exact List.mem_cons_self _ _
        · exact List.mem_cons_of_mem _ (ih _ i h)

theorem medicalHeapLoop_mono (cfg : AiGen.MedicalConfig) :
    ∀ (ids : List Nat) (heap : List Meal) (i : Nat),
      (((heap.getD i {}).medicalScore).isSome = true) →
      ((((AiGen.medicalHeapLoop cfg heap ids).1.getD i {}).medicalScore).isSome = true) := by
  intro ids
  induction ids with
  | nil => intro heap i h; exact h
  | cons id rest ih =>
    intro heap i h
    unfold AiGen.medicalHeapLoop
    match hg : heap.get? id with
    | none =>
      simp only [hg]
      exact ih heap i h
    | some meal =>
      match hd : AiGen.medicalDecision cfg meal with
      | none =>
        simp only [hg, hd]
        exact ih heap i h
      | some s =>
        simp only [hg, hd]
        apply ih
        by_cases hii : id = i
        · subst hii
          rw [List.getD_eq_get?, List.get?_set_eq, hg]
          rfl
        · rw [List.getD_eq_get?, List.get?_set_ne _ _ hii, ← List.getD_eq_get?]
          exact h

theorem medicalHeapLoop_scores (cfg : AiGen.MedicalConfig) :
    ∀ (ids : List Nat) (heap : List Meal) (i : Nat),
      i ∈ (AiGen.medicalHeapLoop cfg heap ids).2 →
      ((((AiGen.medicalHeapLoop cfg heap ids).1.getD i {}).medicalScore).isSome = true) := by
  intro ids
  induction ids with
  | nil => intro heap i h; exact absurd h (by simp [AiGen.medicalHeapLoop])
  | cons id rest ih =>
    intro heap i h
    unfold AiGen.medicalHeapLoop at h ⊢
    match hg : heap.get? id with
    | none =>
      simp only [hg] at h
      simp only [hg]
      exact ih heap i h
    | some meal =>
      match hd : AiGen.medicalDecision cfg meal with
      | none =>
        simp only [hg, hd] at h
        simp only [hg, hd]
        exact ih heap i h
      | some s =>
        simp only [hg, hd, List.mem_cons] at h
        simp only [hg, hd]
        rcases h with rfl | h
        · apply medicalHeapLoop_mono
          have hlt : i < heap.length := by
            rcases List.get?_eq_some.mp hg with ⟨hl, _⟩
            exact hl
          rw [List.getD_eq_get?, List.get?_set_eq, hg]
          rfl
        · exact ih _ i h

theorem pyStableSortDesc_perm {α : Type} (key : α → Int) (l : List α) :
    (pyStableSortDesc key l).Perm l := by
  unfold pyStableSortDesc
  have := (pyStableSortDescIdx_perm key l).map Prod.snd
  rwa [List.enum_map_snd] at this

/-- **C10** — the medical filter writes `medical_score` into each accepted
meal record in place (in the heap), changes nothing else about any heap
record, and since the loader cache stores the loaded list by reference, a
later cache-hit load for the same key dereferences the same records — the
accepted ones still carrying their scores. -/
theorem claim_C10 (heap : List Meal) (ids : List Nat) (mc : String)
    (cache : Cache (List Nat)) (key : String) (cfg : AiGen.MedicalConfig)
    (hcfg : AiGen.findMedicalConfig (pyLower mc) = some cfg)
    (hne : mc ≠ "") (hnn : pyLower mc ≠ "none")
    (hcache : cacheGet cache key = some ids) :
    (∀ i ∈ (AiGen.filter_meals_by_medical_condition_heap heap ids mc).2,
      ((((AiGen.filter_meals_by_medical_condition_heap heap ids mc).1.getD i
        {}).medicalScore).isSome = true)) ∧
    (∀ i : Nat, ((AiGen.filter_meals_by_medical_condition_heap heap ids mc).1.get? i).map
        Meal.clearScore = (heap.get? i).map Meal.clearScore) ∧
    AiGen.cachedLoadHeap cache (AiGen.filter_meals_by_medical_condition_heap heap ids mc).1 key
      = some (ids.map (fun i =>
          (AiGen.filter_meals_by_medical_condition_heap heap ids mc).1.getD i {})) ∧
    (∀ i ∈ (AiGen.filter_meals_by_medical_condition_heap heap ids mc).2, i ∈ ids) := by
  have hred : AiGen.filter_meals_by_medical_condition_heap heap ids mc
      = ((AiGen.medicalHeapLoop cfg heap ids).1,
         pyStableSortDesc
           (fun i => (((AiGen.medicalHeapLoop cfg heap ids).1.getD i {}).medicalScore).getD 0)
           (AiGen.medicalHeapLoop cfg heap ids).2) := by
    unfold AiGen.filter_meals_by_medical_condition_heap
    rw [if_neg (by push_neg; exact ⟨hne, hnn⟩), hcfg]
  rw [hred]
  refine ⟨?_, ?_, ?_, ?_⟩
  · intro i hi
    have hi' : i ∈ (AiGen.medicalHeapLoop cfg heap ids).2 :=
      (pyStableSortDesc_perm _ _).subset hi
    exact medicalHeapLoop_scores cfg ids heap i hi'
  · intro i
    exact medicalHeapLoop_frame cfg ids heap i
  · unfold AiGen.cachedLoadHeap
    rw [hcache]
    rfl
  · intro i hi
    have hi' : i ∈ (AiGen.medicalHeapLoop cfg heap ids).2 :=
      (pyStableSortDesc_perm _ _).subset hi
    exact medicalHeapLoop_subset cfg ids heap i hi'

/-- Witness for C10: one diabetes-safe meal in a one-cell heap referenced
by a cached load list; after filtering, the accepted record at address 0
carries a `medical_score`. -/
theorem claim_C10_witness :
    ((((AiGen.filter_meals_by_medical_condition_heap [mealRiceBowl] [0]
      "diabetes").1.getD 0 {}).medicalScore).isSome = true) :=
  (claim_C10 [mealRiceBowl] [0] "diabetes" [("k", [0])] "k"
    (AiGen.MEDICAL_CONDITION_MAPPING.headD
      ("", { keywords := [], avoid := [], preferred := [] })).2
    (by decide) (by decide) (by decide) (by decide)).1 0 (by decide)

theorem fullMatchResponse_ne_empty (a b c d : String) (m t : List AiGen.MatchResult) :
    AiGen.fullMatchResponse a b c d m t ≠ "" := by
  unfold AiGen.fullMatchResponse
  repeat apply str_append_ne_empty
  decide

theorem partialMatchResponse_ne_empty (a b c d : String) (m t : List AiGen.MatchResult) :
    AiGen.partialMatchResponse a b c d m t ≠ "" := by
  unfold AiGen.partialMatchResponse
  repeat apply str_append_ne_empty
  decide

theorem fallback_response_ne_empty (a b c d : String) :
    AiGen.generate_fallback_ingredient_response a b c d ≠ "" := by
  unfold AiGen.generate_fallback_ingredient_response
  repeat apply str_append_ne_empty
  decide

/-- **C1 (amended)** — totality of the orchestrator holds whenever the
`diet_type` and `state` values in the user dict are strings (for
non-string values the `except` handler itself raises, see the
counterexample) and a successful generation result is non-empty (the code
returns that text verbatim): the call returns `Except.ok` with a non-empty
response for every environment, cache, ingredients string and meal type. -/
theorem claim_C1 (env : AiGen.OrchEnv) (cache : Cache (List Meal))
    (user_data : List (String × PyVal)) (ingredients meal_type : String)
    (hdiet : ∃ s, pyGet user_data "diet_type" (pyGet user_data "diet" (.str "vegetarian"))
      = .str s)
    (hstate : ∃ s, pyGet user_data "state" (.str "maharashtra") = .str s)
    (hai : ∀ t, env.aiResult = some t → t ≠ "") :
    ∃ s, (AiGen.generate_ingredient_based_meal_plan env cache user_data ingredients
      meal_type).1 = Except.ok s ∧ s ≠ "" := by
  obtain ⟨ds, hds⟩ := hdiet
  obtain ⟨ss, hss⟩ := hstate
  unfold AiGen.generate_ingredient_based_meal_plan
  rw [hds, hss]
  simp only [PyVal.lower]
  split
  · exact ⟨_, rfl, fallback_response_ne_empty _ _ _ _⟩
  · split
    · exact ⟨_, rfl, fullMatchResponse_ne_empty _ _ _ _ _ _⟩
    · split
      · exact ⟨_, rfl, partialMatchResponse_ne_empty _ _ _ _ _ _⟩
      · split
        · exact ⟨_, rfl, fallback_response_ne_empty _ _ _ _⟩
        · split
          · rename_i t ht
            exact ⟨t, rfl, hai t ht⟩
          · exact ⟨_, rfl, fallback_response_ne_empty _ _ _ _⟩

/-- **C1 counterexample** — with a non-string `diet_type` value in the
user dict, the `AttributeError` from `.lower()` is raised before the
local `diet_type` is bound; the `except` handler then references that
unbound local and an `UnboundLocalError` escapes to the caller,
contradicting both the non-empty-string result and the never-raises
claim. -/
theorem claim_C1_counterexample :
    (AiGen.generate_ingredient_based_meal_plan envNoAI [] userDataNonStrDiet "rice" "meal").1
      = Except.error AiGen.PyErr.uncaughtNameError := by
  rfl

/-- Witness for C1 at an empty user dict (all defaults are strings), no
catalog files and no generation capability. -/
theorem claim_C1_witness :
    ∃ s, (AiGen.generate_ingredient_based_meal_plan envNoAI [] [] "rice" "meal").1
      = Except.ok s ∧ s ≠ "" :=
  claim_C1 envNoAI [] [] "rice" "meal" ⟨"vegetarian", rfl⟩ ⟨"maharashtra", rfl⟩
    (fun t ht => by cases ht)
